import Mathlib

/-!
# DV codec constants and inline helpers (`libavcodec/dvdata.h`)

A shallow embedding of the inline functions of `dvdata.h`.

Conventions of the embedding:

* C `int` values are Lean `Int`; `uint8_t`, `uint16_t` and `uint32_t` values are
  Lean `Nat`, reduced modulo `2^8`, `2^16`, `2^32` wherever the C code converts
  to the unsigned type (parameter passing, stores through a pointer).
* `a | b` and `a & b` on `int` are `Int.lor` and `Int.land` (two's complement),
  `a << n` is `a * 2^n` and `a >> n` is `a / 2^n` (floor division).
* A byte buffer `uint8_t *buf` is a function from offsets to bytes, and a store
  `buf[i] = v` is `Buf.write`.
* A lookup in a table of declared dimensions returns `none` outside them.
-/

namespace DV

/-! ## Machine integers -/

/-- Conversion of an `int` to `uint8_t`. -/
def to_u8 (x : Int) : Nat := (x % 256).toNat

/-- Conversion of an `int` to `uint32_t`. -/
def to_u32 (x : Int) : Nat := (x % 4294967296).toNat

/-- Conversion of a `uint32_t` to `int` (two's complement). -/
def to_i32 (n : Nat) : Int :=
  if n % 4294967296 < 2147483648 then ((n % 4294967296 : Nat) : Int)
  else ((n % 4294967296 : Nat) : Int) - 4294967296

/-- Left shift `x << n` of an `int`. -/
def shl (x : Int) (n : Nat) : Int := x * ((2 ^ n : Nat) : Int)

/-- Right shift `x >> n` of an `int` (arithmetic). -/
def shr (x : Int) (n : Nat) : Int := x / ((2 ^ n : Nat) : Int)

/-! ## Byte buffers -/

/-- Memory behind a `uint8_t *`: the byte at each offset. -/
abbrev Buf := Nat → Nat

/-- The store `buf[i] = v`. -/
def Buf.write (buf : Buf) (i v : Nat) : Buf := fun j => if j = i then v else buf j

/-! ## Section identifiers -/

/-- The C enumeration `dv_section_type`. -/
inductive dv_section_type where
  | dv_sect_header
  | dv_sect_subcode
  | dv_sect_vaux
  | dv_sect_audio
  | dv_sect_video
  deriving DecidableEq, Repr

/-- The integer value of each enumerator of `dv_section_type`. -/
def dv_section_type.val : dv_section_type → Int
  | .dv_sect_header  => 0x1f
  | .dv_sect_subcode => 0x3f
  | .dv_sect_vaux    => 0x56
  | .dv_sect_audio   => 0x76
  | .dv_sect_video   => 0x96

/-- The function `dv_write_dif_id`: writes the three identifier bytes of a DIF
block and returns 3.  The `uint8_t` parameters are converted on entry. -/
def dv_write_dif_id (t : dv_section_type) (chan_num seq_num dif_num : Nat)
    (buf : Buf) : Int × Buf :=
  let chan_num : Int := ((chan_num % 256 : Nat) : Int)
  let seq_num : Int := ((seq_num % 256 : Nat) : Int)
  let dif_num : Int := ((dif_num % 256 : Nat) : Int)
  let fsc : Int := Int.land chan_num 1
  let fsp : Int := 1 - shr chan_num 1
  let buf := buf.write 0 (to_u8 t.val)
  let buf := buf.write 1
    (to_u8 (Int.lor (Int.lor (Int.lor (shl seq_num 4) (shl fsc 3)) (shl fsp 2)) 3))
  let buf := buf.write 2 (to_u8 dif_num)
  (3, buf)

/-- The function `dv_write_ssyb_id`: writes the three identifier bytes of a
subcode sync block and returns 3. -/
def dv_write_ssyb_id (syb_num fr : Nat) (buf : Buf) : Int × Buf :=
  let syb_num : Int := ((syb_num % 256 : Nat) : Int)
  let fr : Int := ((fr % 256 : Nat) : Int)
  let buf :=
    if syb_num = 0 ∨ syb_num = 6 then
      buf.write 0 (to_u8 (Int.lor (Int.lor (shl fr 7) (shl 0 4)) 0x0f))
    else if syb_num = 11 then
      buf.write 0 (to_u8 (Int.lor (shl fr 7) 0x7f))
    else
      buf.write 0 (to_u8 (Int.lor (Int.lor (shl fr 7) (shl 0 4)) 0x0f))
  let buf := buf.write 1 (to_u8 (Int.lor 0xf0 (Int.land syb_num 0x0f)))
  let buf := buf.write 2 (to_u8 0xff)
  (3, buf)

/-- Inverse of the enumerator values: the section type tagged by a byte. -/
def dv_section_type.ofByte (b : Nat) : Option dv_section_type :=
  if b = 0x1f then some .dv_sect_header
  else if b = 0x3f then some .dv_sect_subcode
  else if b = 0x56 then some .dv_sect_vaux
  else if b = 0x76 then some .dv_sect_audio
  else if b = 0x96 then some .dv_sect_video
  else none

/-- Unpacking of a section identifier (not part of `dvdata.h`; it states the
round trip): section type from byte 0, channel from the FSC and FSP bits and
sequence number from the upper nibble of byte 1, block number from byte 2. -/
def unpack_dif_id (buf : Buf) : Option (dv_section_type × Nat × Nat × Nat) :=
  (dv_section_type.ofByte (buf 0)).map fun t =>
    (t, ((buf 1 >>> 3) &&& 1) + 2 * (1 - ((buf 1 >>> 2) &&& 1)), buf 1 >>> 4, buf 2)

/-- Unpacking of a subcode sync block identifier (not part of `dvdata.h`):
sync block number from the low nibble of byte 1, field flag from bit 7 of
byte 0. -/
def unpack_ssyb_id (buf : Buf) : Nat × Nat :=
  (buf 1 &&& 0x0f, buf 0 >>> 7)

/-! ## Run/level to VLC conversion -/

/-- The macro `DV_VLC_MAP_RUN_SIZE`, which depends on `CONFIG_SMALL`. -/
def DV_VLC_MAP_RUN_SIZE (CONFIG_SMALL : Bool) : Nat := if CONFIG_SMALL then 15 else 64

/-- The macro `DV_VLC_MAP_LEV_SIZE`, which depends on `CONFIG_SMALL`. -/
def DV_VLC_MAP_LEV_SIZE (CONFIG_SMALL : Bool) : Nat := if CONFIG_SMALL then 23 else 512

/-- The struct `dv_vlc_pair`: two `uint32_t` fields. -/
structure dv_vlc_pair where
  vlc : Nat
  size : Nat
  deriving DecidableEq, Repr

/-- Content of the table `dv_vlc_map`, which the header only declares `extern`:
the entry stored at each row and column. -/
abbrev VlcMap := Nat → Nat → dv_vlc_pair

/-- The read `dv_vlc_map[run][level]` of the table declared as
`dv_vlc_map[DV_VLC_MAP_RUN_SIZE][DV_VLC_MAP_LEV_SIZE]`: `none` when an index is
outside its dimension, the entry (as two `uint32_t`) otherwise. -/
def dv_vlc_map_at (CONFIG_SMALL : Bool) (dv_vlc_map : VlcMap) (run level : Int) :
    Option dv_vlc_pair :=
  if 0 ≤ run ∧ run < DV_VLC_MAP_RUN_SIZE CONFIG_SMALL ∧
      0 ≤ level ∧ level < DV_VLC_MAP_LEV_SIZE CONFIG_SMALL then
    some { vlc := (dv_vlc_map run.toNat level.toNat).vlc % 4294967296,
           size := (dv_vlc_map run.toNat level.toNat).size % 4294967296 }
  else none

/-- Left shift `x << n` of a `uint32_t` by an `int` count: the product with
`2^n` truncated to 32 bits.  C defines the shift for counts 0..31 only; outside
that range the model still truncates the product (count above 31) or leaves
`x` unshifted (negative count). -/
def shl_u32 (x : Nat) (n : Int) : Nat := (x * 2 ^ n.toNat) % 4294967296

/-- The function `dv_rl2vlc`, in both its `CONFIG_SMALL` and its full variant:
the returned bit size paired with the code stored through `vlc`, or `none` when
a table read is out of bounds. -/
def dv_rl2vlc (CONFIG_SMALL : Bool) (dv_vlc_map : VlcMap) (run level sign : Int) :
    Option (Int × Nat) :=
  if CONFIG_SMALL then
    if run < DV_VLC_MAP_RUN_SIZE true ∧ level < DV_VLC_MAP_LEV_SIZE true then
      (dv_vlc_map_at true dv_vlc_map run level).bind fun e =>
        some (to_i32 e.size, e.vlc ||| to_u32 sign)
    else
      (if level < DV_VLC_MAP_LEV_SIZE true then
        (dv_vlc_map_at true dv_vlc_map 0 level).bind fun e =>
          some (to_i32 e.size, e.vlc ||| to_u32 sign)
      else
        some (16, to_u32 (Int.lor (Int.lor 0xfe00 (shl level 1)) sign))).bind fun r =>
      if run ≠ 0 then
        (if run < 16 then (dv_vlc_map_at true dv_vlc_map (run - 1) 0).bind fun e => some e.vlc
         else some (to_u32 (Int.lor 0x1f80 (run - 1)))).bind fun code =>
        (if run < 16 then (dv_vlc_map_at true dv_vlc_map (run - 1) 0).bind fun e => some e.size
         else some 13).bind fun len =>
        some (to_i32 (to_u32 r.1 + len), r.2 ||| shl_u32 code r.1)
      else some r
  else
    (dv_vlc_map_at false dv_vlc_map run level).bind fun e =>
      some (to_i32 e.size, e.vlc ||| to_u32 sign)

/-- The function `dv_rl2vlc_size`, in both its `CONFIG_SMALL` and its full
variant: the returned bit size, or `none` when a table read is out of bounds. -/
def dv_rl2vlc_size (CONFIG_SMALL : Bool) (dv_vlc_map : VlcMap) (run level : Int) :
    Option Int :=
  if CONFIG_SMALL then
    if run < DV_VLC_MAP_RUN_SIZE true ∧ level < DV_VLC_MAP_LEV_SIZE true then
      (dv_vlc_map_at true dv_vlc_map run level).bind fun e => some (to_i32 e.size)
    else
      (if level < DV_VLC_MAP_LEV_SIZE true then
        (dv_vlc_map_at true dv_vlc_map 0 level).bind fun e => some (to_i32 e.size)
      else some 16).bind fun size =>
      if run ≠ 0 then
        (if run < 16 then (dv_vlc_map_at true dv_vlc_map (run - 1) 0).bind fun e => some e.size
         else some 13).bind fun len =>
        some (to_i32 (to_u32 size + len))
      else some size
  else
    (dv_vlc_map_at false dv_vlc_map run level).bind fun e => some (to_i32 e.size)

/-! ## Work chunks and macroblock coordinates -/

/-- The struct `DVwork_chunk`: a `uint16_t` buffer offset and the array
`uint16_t mb_coordinates[5]`, given by its content at each index. -/
structure DVwork_chunk where
  buf_offset : Nat
  mb_coordinates : Nat → Nat

/-- The read `work_chunk->mb_coordinates[m]` of the five-element array: `none`
when `m` is outside 0..4, the `uint16_t` element otherwise. -/
def DVwork_chunk.mb_coordinates_at (work_chunk : DVwork_chunk) (m : Int) : Option Nat :=
  if 0 ≤ m ∧ m < 5 then some (work_chunk.mb_coordinates m.toNat % 65536) else none

/-- The struct `DVprofile`, restricted to its `int` fields. -/
structure DVprofile where
  dsf : Int
  video_stype : Int
  frame_size : Int
  difseg_size : Int
  n_difchan : Int
  ltc_divisor : Int
  height : Int
  width : Int
  bpm : Int
  audio_stride : Int

/-- The struct `DVVideoContext`, restricted to the profile `sys` and the frame
bytes `buf`. -/
structure DVVideoContext where
  sys : DVprofile
  buf : Buf

/-- The function `dv_calculate_mb_xy`: the pair (`*mb_x`, `*mb_y`) it stores, or
`none` when `m` is outside the coordinate array. -/
def dv_calculate_mb_xy (s : DVVideoContext) (work_chunk : DVwork_chunk) (m : Int) :
    Option (Int × Int) :=
  (work_chunk.mb_coordinates_at m).bind fun c =>
    let mb_x : Int := Int.land (c : Int) 0xff
    let mb_y : Int := shr (c : Int) 8
    if s.sys.height = 720 ∧ Int.land ((s.buf 1 : Nat) : Int) 0x0C = 0 then
      some (mb_x, mb_y - (if mb_y > 17 then 18 else -72))
    else
      some (mb_x, mb_y)

/-! ## DV100 quantization tables -/

/-- The macro `DV100_SACRIFICE_QUALITY_FOR_SPEED`, defined as 1. -/
def DV100_SACRIFICE_QUALITY_FOR_SPEED : Nat := 1

/-- The table `dv100_qstep[16]`: quantization quanta by QNO. -/
def dv100_qstep : List Nat :=
  [1, 1, 2, 3, 4, 5, 6, 7, 8, 16, 18, 20, 22, 24, 28, 52]

/-- The macro `DV100_MAKE_QLEVEL(qno,cno)`, which is `((qno<<2) | (cno))`. -/
def DV100_MAKE_QLEVEL (qno cno : Int) : Int := Int.lor (shl qno 2) cno

/-- The macro `DV100_QLEVEL_QNO(qlevel)`, which is `(qlevel>>2)`. -/
def DV100_QLEVEL_QNO (qlevel : Int) : Int := shr qlevel 2

/-- The macro `DV100_QLEVEL_CNO(qlevel)`, which is `(qlevel&0x3)`. -/
def DV100_QLEVEL_CNO (qlevel : Int) : Int := Int.land qlevel 0x3

/-- The table `dv100_qlevels[]` of `uint8_t`: combinations of QNO and CNO in
order of increasing quantization coarseness. -/
def dv100_qlevels : List Nat :=
  [ to_u8 (DV100_MAKE_QLEVEL 1 0),
    to_u8 (DV100_MAKE_QLEVEL 1 0),
    to_u8 (DV100_MAKE_QLEVEL 2 0),
    to_u8 (DV100_MAKE_QLEVEL 3 0),
    to_u8 (DV100_MAKE_QLEVEL 4 0),
    to_u8 (DV100_MAKE_QLEVEL 5 0),
    to_u8 (DV100_MAKE_QLEVEL 6 0),
    to_u8 (DV100_MAKE_QLEVEL 7 0),
    to_u8 (DV100_MAKE_QLEVEL 8 0),
    to_u8 (DV100_MAKE_QLEVEL 5 1),
    to_u8 (DV100_MAKE_QLEVEL 6 1),
    to_u8 (DV100_MAKE_QLEVEL 7 1),
    to_u8 (DV100_MAKE_QLEVEL 9 0),
    to_u8 (DV100_MAKE_QLEVEL 10 0),
    to_u8 (DV100_MAKE_QLEVEL 11 0),
    to_u8 (DV100_MAKE_QLEVEL 12 0),
    to_u8 (DV100_MAKE_QLEVEL 13 0),
    to_u8 (DV100_MAKE_QLEVEL 14 0),
    to_u8 (DV100_MAKE_QLEVEL 9 1),
    to_u8 (DV100_MAKE_QLEVEL 10 1),
    to_u8 (DV100_MAKE_QLEVEL 11 1),
    to_u8 (DV100_MAKE_QLEVEL 12 1),
    to_u8 (DV100_MAKE_QLEVEL 13 1),
    to_u8 (DV100_MAKE_QLEVEL 15 0),
    to_u8 (DV100_MAKE_QLEVEL 14 1),
    to_u8 (DV100_MAKE_QLEVEL 9 2),
    to_u8 (DV100_MAKE_QLEVEL 10 2),
    to_u8 (DV100_MAKE_QLEVEL 11 2),
    to_u8 (DV100_MAKE_QLEVEL 12 2),
    to_u8 (DV100_MAKE_QLEVEL 13 2),
    to_u8 (DV100_MAKE_QLEVEL 15 3) ]

/-- The constant `dv100_num_qlevels`, which is
`sizeof(dv100_qlevels)/sizeof(dv100_qlevels[0])`. -/
def dv100_num_qlevels : Int := (dv100_qlevels.length : Int)

/-- The table `dv100_qstep_delta[16]`: how much to increase the qlevel when
compressing more coarsely; its content depends on
`DV100_SACRIFICE_QUALITY_FOR_SPEED`. -/
def dv100_qstep_delta : List Nat :=
  if DV100_SACRIFICE_QUALITY_FOR_SPEED ≠ 0 then
    [0, 2, 0, 5, 0, 0, 0, 0, 1, 6, 0, 0, 0, 0, 0, 0]
  else
    [1, 1, 1, 1, 1, 1, 1, 1, 1, 1, 1, 1, 1, 1, 1, 1]

/-- The table `dv100_qbackstep_delta[16]`: how much to decrease the qlevel when
compressing more finely; its content depends on
`DV100_SACRIFICE_QUALITY_FOR_SPEED`. -/
def dv100_qbackstep_delta : List Nat :=
  if DV100_SACRIFICE_QUALITY_FOR_SPEED ≠ 0 then
    [0, 0, 0, 2, 0, 0, 0, 0, 5, 1, 0, 0, 0, 0, 0, 6]
  else
    [1, 1, 1, 1, 1, 1, 1, 1, 1, 1, 1, 1, 1, 1, 1, 1]

/-- The constant `dv100_min_bias`. -/
def dv100_min_bias : Int := 0

/-- The constant `dv100_chroma_bias`. -/
def dv100_chroma_bias : Int := 0

/-- The constant `dv100_starting_qno`. -/
def dv100_starting_qno : Int := 1

/-- The constant `dv100_min_qno`. -/
def dv100_min_qno : Int := 1

/-- The constant `dv100_qlevel_inc`, which depends on
`DV100_SACRIFICE_QUALITY_FOR_SPEED`. -/
def dv100_qlevel_inc : Int := if DV100_SACRIFICE_QUALITY_FOR_SPEED ≠ 0 then 4 else 1

/-- The constant `dv100_qstep_bits`. -/
def dv100_qstep_bits : Int := 16

/-- The table `dv100_qstep_inv[16]`: 1/qstep, shifted up by 16 bits. -/
def dv100_qstep_inv : List Int :=
  [65536, 65536, 32768, 21845, 16384, 13107, 10923, 9362, 8192, 4096, 3641, 3277, 2979, 2731,
   2341, 1260]

/-- Effective quantization step of a qlevel, as the comments of `dv100_qlevels`
compute it: the quantum `dv100_qstep[QNO]` times `2^CNO`. -/
def qlevel_step (qlevel : Nat) : Nat :=
  dv100_qstep.getD (DV100_QLEVEL_QNO (qlevel : Int)).toNat 0 *
    2 ^ (DV100_QLEVEL_CNO (qlevel : Int)).toNat

/-! ## Audio shuffle tables -/

/-- The table `dv_audio_shuffle525[10][9]`. -/
def dv_audio_shuffle525 : List (List Nat) :=
  [ [ 0, 30, 60, 20, 50, 80, 10, 40, 70],
    [ 6, 36, 66, 26, 56, 86, 16, 46, 76],
    [12, 42, 72,  2, 32, 62, 22, 52, 82],
    [18, 48, 78,  8, 38, 68, 28, 58, 88],
    [24, 54, 84, 14, 44, 74,  4, 34, 64],
    [ 1, 31, 61, 21, 51, 81, 11, 41, 71],
    [ 7, 37, 67, 27, 57, 87, 17, 47, 77],
    [13, 43, 73,  3, 33, 63, 23, 53, 83],
    [19, 49, 79,  9, 39, 69, 29, 59, 89],
    [25, 55, 85, 15, 45, 75,  5, 35, 65] ]

/-- The table `dv_audio_shuffle625[12][9]`. -/
def dv_audio_shuffle625 : List (List Nat) :=
  [ [  0,  36,  72,  26,  62,  98,  16,  52,  88],
    [  6,  42,  78,  32,  68, 104,  22,  58,  94],
    [ 12,  48,  84,   2,  38,  74,  28,  64, 100],
    [ 18,  54,  90,   8,  44,  80,  34,  70, 106],
    [ 24,  60,  96,  14,  50,  86,   4,  40,  76],
    [ 30,  66, 102,  20,  56,  92,  10,  46,  82],
    [  1,  37,  73,  27,  63,  99,  17,  53,  89],
    [  7,  43,  79,  33,  69, 105,  23,  59,  95],
    [ 13,  49,  85,   3,  39,  75,  29,  65, 101],
    [ 19,  55,  91,   9,  45,  81,  35,  71, 107],
    [ 25,  61,  97,  15,  51,  87,   5,  41,  77],
    [ 31,  67, 103,  21,  57,  93,  11,  47,  83] ]

/-! ## Work pool size -/

/-- The macro `DV_PROFILE_IS_1080i50(p)`. -/
def DV_PROFILE_IS_1080i50 (p : DVprofile) : Bool :=
  decide (p.video_stype = 0x14) && decide (p.dsf = 1)

/-- The macro `DV_PROFILE_IS_720p50(p)`. -/
def DV_PROFILE_IS_720p50 (p : DVprofile) : Bool :=
  decide (p.video_stype = 0x18) && decide (p.dsf = 1)

/-- The function `dv_work_pool_size`.  The `int` arithmetic is exact: signed
overflow, which C leaves undefined, is outside the model. -/
def dv_work_pool_size (d : DVprofile) : Int :=
  let size : Int := d.n_difchan * d.difseg_size * 27
  let size : Int := if DV_PROFILE_IS_1080i50 d then size - 3 * 27 else size
  let size : Int := if DV_PROFILE_IS_720p50 d then size - 4 * 27 else size
  size

/-! ## DV100 weight tables -/

/-- The constant `dv100_weight_shift`. -/
def dv100_weight_shift : Int := 16

/-- The table `dv_weight_1080[2][64]`: DV100 forward weights, pre-zigzagged,
inverted and multiplied by `2^dv100_weight_shift`. -/
def dv_weight_1080 : List (List Int) :=
  [ [ 8192, 65536, 65536, 61681, 61681, 61681, 58254, 58254,
      58254, 58254, 58254, 58254, 55188, 58254, 58254, 55188,
      55188, 55188, 55188, 55188, 55188, 24966, 27594, 26214,
      26214, 26214, 27594, 24966, 23831, 24385, 25575, 25575,
      25575, 25575, 24385, 23831, 23302, 23302, 24966, 24966,
      24966, 23302, 23302, 21845, 22795, 24385, 24385, 22795,
      21845, 21400, 21845, 23831, 21845, 21400, 10382, 10700,
      10700, 10382, 10082, 9620, 10082, 9039, 9039, 8525 ],
    [ 8192, 65536, 65536, 61681, 61681, 61681, 41943, 41943,
      41943, 41943, 40330, 41943, 40330, 41943, 40330, 40330,
      40330, 38836, 38836, 40330, 40330, 24966, 27594, 26214,
      26214, 26214, 27594, 24966, 23831, 24385, 25575, 25575,
      25575, 25575, 24385, 23831, 11523, 11523, 12483, 12483,
      12483, 11523, 11523, 10923, 11275, 12193, 12193, 11275,
      10923, 5323, 5490, 5924, 5490, 5323, 5165, 5323,
      5323, 5165, 5017, 4788, 5017, 4520, 4520, 4263 ] ]

/-- The table `dv_weight_720[2][64]`: DV100 forward weights, pre-zigzagged,
inverted and multiplied by `2^dv100_weight_shift`. -/
def dv_weight_720 : List (List Int) :=
  [ [ 8192, 65536, 65536, 61681, 61681, 61681, 58254, 58254,
      58254, 58254, 58254, 58254, 55188, 58254, 58254, 55188,
      55188, 55188, 55188, 55188, 55188, 24966, 27594, 26214,
      26214, 26214, 27594, 24966, 23831, 24385, 25575, 25575,
      25575, 25575, 24385, 23831, 15420, 15420, 16644, 16644,
      16644, 15420, 15420, 10923, 11398, 12193, 12193, 11398,
      10923, 10700, 10923, 11916, 10923, 10700, 5191, 5350,
      5350, 5191, 5041, 4810, 5041, 4520, 4520, 4263 ],
    [ 8192, 43691, 43691, 40330, 40330, 40330, 29127, 29127,
      29127, 29127, 29127, 29127, 27594, 29127, 29127, 27594,
      27594, 27594, 27594, 27594, 27594, 12483, 13797, 13107,
      13107, 13107, 13797, 12483, 11916, 12193, 12788, 12788,
      12788, 12788, 12193, 11916, 5761, 5761, 6242, 6242,
      6242, 5761, 5761, 5461, 5638, 5461, 6096, 5638,
      5461, 2661, 2745, 2962, 2745, 2661, 2583, 2661,
      2661, 2583, 2509, 2394, 2509, 2260, 2260, 2131 ] ]

/-- The table `dv_iweight_1080_y[64]`: the spec weights, zig-zagged. -/
def dv_iweight_1080_y : List Int :=
  [ 128, 16, 16, 17, 17, 17, 18, 18,
    18, 18, 18, 18, 19, 18, 18, 19,
    19, 19, 19, 19, 19, 42, 38, 40,
    40, 40, 38, 42, 44, 43, 41, 41,
    41, 41, 43, 44, 45, 45, 42, 42,
    42, 45, 45, 48, 46, 43, 43, 46,
    48, 49, 48, 44, 48, 49, 101, 98,
    98, 101, 104, 109, 104, 116, 116, 123 ]

/-- The table `dv_iweight_1080_c[64]`: the spec weights, zig-zagged. -/
def dv_iweight_1080_c : List Int :=
  [ 128, 16, 16, 17, 17, 17, 25, 25,
    25, 25, 26, 25, 26, 25, 26, 26,
    26, 27, 27, 26, 26, 42, 38, 40,
    40, 40, 38, 42, 44, 43, 41, 41,
    41, 41, 43, 44, 91, 91, 84, 84,
    84, 91, 91, 96, 93, 86, 86, 93,
    96, 197, 191, 177, 191, 197, 203, 197,
    197, 203, 209, 219, 209, 232, 232, 246 ]

/-- The table `dv_iweight_720_y[64]`: the spec weights, zig-zagged. -/
def dv_iweight_720_y : List Int :=
  [ 128, 16, 16, 17, 17, 17, 18, 18,
    18, 18, 18, 18, 19, 18, 18, 19,
    19, 19, 19, 19, 19, 42, 38, 40,
    40, 40, 38, 42, 44, 43, 41, 41,
    41, 41, 43, 44, 68, 68, 63, 63,
    63, 68, 68, 96, 92, 86, 86, 92,
    96, 98, 96, 88, 96, 98, 202, 196,
    196, 202, 208, 218, 208, 232, 232, 246 ]

/-- The table `dv_iweight_720_c[64]`: the spec weights, zig-zagged. -/
def dv_iweight_720_c : List Int :=
  [ 128, 24, 24, 26, 26, 26, 36, 36,
    36, 36, 36, 36, 38, 36, 36, 38,
    38, 38, 38, 38, 38, 84, 76, 80,
    80, 80, 76, 84, 88, 86, 82, 82,
    82, 82, 86, 88, 182, 182, 168, 168,
    168, 182, 182, 192, 186, 192, 172, 186,
    192, 394, 382, 354, 382, 394, 406, 394,
    394, 406, 418, 438, 418, 464, 464, 492 ]

/-! ## Theorems

### Identifier packers: auxiliary facts -/

theorem to_u8_natCast (n : Nat) : to_u8 (n : Int) = n % 256 := by
  unfold to_u8; omega

theorem dv_write_dif_id_ret (t : dv_section_type) (c s d : Nat) (buf : Buf) :
    (dv_write_dif_id t c s d buf).1 = 3 := rfl

theorem dv_write_dif_id_b0 (t : dv_section_type) (c s d : Nat) (buf : Buf) :
    (dv_write_dif_id t c s d buf).2 0 = to_u8 t.val := rfl

theorem dv_write_dif_id_b1 (t : dv_section_type) (c s d : Nat) (buf : Buf) :
    (dv_write_dif_id t c s d buf).2 1 =
      (dv_write_dif_id .dv_sect_header c s 0 (fun _ => 0)).2 1 := rfl

theorem dv_write_dif_id_b2 (t : dv_section_type) (c s d : Nat) (buf : Buf) :
    (dv_write_dif_id t c s d buf).2 2 = d % 256 := by
  show to_u8 ((d % 256 : Nat) : Int) = d % 256
  rw [to_u8_natCast]; omega

theorem dv_write_dif_id_rest (t : dv_section_type) (c s d : Nat) (buf : Buf)
    (i : Nat) (hi : 3 ≤ i) : (dv_write_dif_id t c s d buf).2 i = buf i := by
  have h0 : i ≠ 0 := by omega
  have h1 : i ≠ 1 := by omega
  have h2 : i ≠ 2 := by omega
  simp [dv_write_dif_id, Buf.write, h0, h1, h2]

theorem dv_section_type_val_byte (t : dv_section_type) :
    to_u8 t.val = t.val.toNat ∧ dv_section_type.ofByte (to_u8 t.val) = some t := by
  cases t <;> decide

theorem dv_write_dif_id_b1_fields :
    ∀ c < 4, ∀ s < 16,
      (dv_write_dif_id .dv_sect_header c s 0 (fun _ => 0)).2 1 >>> 4 = s ∧
      ((dv_write_dif_id .dv_sect_header c s 0 (fun _ => 0)).2 1 >>> 3) &&& 1 = c &&& 1 ∧
      ((dv_write_dif_id .dv_sect_header c s 0 (fun _ => 0)).2 1 >>> 2) &&& 1 = 1 - (c >>> 1) ∧
      (dv_write_dif_id .dv_sect_header c s 0 (fun _ => 0)).2 1 &&& 3 = 3 ∧
      (dv_write_dif_id .dv_sect_header c s 0 (fun _ => 0)).2 1 < 256 ∧
      (((dv_write_dif_id .dv_sect_header c s 0 (fun _ => 0)).2 1 >>> 3) &&& 1) +
        2 * (1 - (((dv_write_dif_id .dv_sect_header c s 0 (fun _ => 0)).2 1 >>> 2) &&& 1)) = c := by
  decide

theorem unpack_dif_id_congr (b b' : Buf) (h : ∀ i < 3, b i = b' i) :
    unpack_dif_id b = unpack_dif_id b' := by
  unfold unpack_dif_id
  rw [h 0 (by decide), h 1 (by decide), h 2 (by decide)]

theorem unpack_dif_id_write (t : dv_section_type) (c s d : Nat) (buf : Buf)
    (hc : c < 4) (hs : s < 16) (hd : d < 256) :
    unpack_dif_id (dv_write_dif_id t c s d buf).2 = some (t, c, s, d) := by
  obtain ⟨h4, -, -, -, -, hchan⟩ := dv_write_dif_id_b1_fields c hc s hs
  unfold unpack_dif_id
  rw [dv_write_dif_id_b0, dv_write_dif_id_b1, dv_write_dif_id_b2,
    (dv_section_type_val_byte t).2, h4, hchan, Nat.mod_eq_of_lt hd]
  rfl

theorem dv_write_ssyb_id_ret (syb fr : Nat) (buf : Buf) :
    (dv_write_ssyb_id syb fr buf).1 = 3 := rfl

theorem dv_write_ssyb_id_b0 (syb fr : Nat) (buf : Buf) :
    (dv_write_ssyb_id syb fr buf).2 0 = (dv_write_ssyb_id syb fr (fun _ => 0)).2 0 := by
  simp only [dv_write_ssyb_id]
  split_ifs <;> rfl

theorem dv_write_ssyb_id_b1 (syb fr : Nat) (buf : Buf) :
    (dv_write_ssyb_id syb fr buf).2 1 = (dv_write_ssyb_id syb fr (fun _ => 0)).2 1 := rfl

theorem dv_write_ssyb_id_b2 (syb fr : Nat) (buf : Buf) :
    (dv_write_ssyb_id syb fr buf).2 2 = (dv_write_ssyb_id syb fr (fun _ => 0)).2 2 := rfl

theorem dv_write_ssyb_id_rest (syb fr : Nat) (buf : Buf) (i : Nat) (hi : 3 ≤ i) :
    (dv_write_ssyb_id syb fr buf).2 i = buf i := by
  have h0 : i ≠ 0 := by omega
  have h1 : i ≠ 1 := by omega
  have h2 : i ≠ 2 := by omega
  simp only [dv_write_ssyb_id]
  split_ifs <;> simp [Buf.write, h0, h1, h2]

theorem dv_write_ssyb_id_fields :
    ∀ syb < 12, ∀ fr < 2,
      (dv_write_ssyb_id syb fr (fun _ => 0)).2 0 &&& 0x0f = 0x0f ∧
      (dv_write_ssyb_id syb fr (fun _ => 0)).2 0 >>> 7 = fr ∧
      ((dv_write_ssyb_id syb fr (fun _ => 0)).2 0 >>> 4) &&& 7 = (if syb = 11 then 7 else 0) ∧
      (dv_write_ssyb_id syb fr (fun _ => 0)).2 0 < 256 ∧
      (dv_write_ssyb_id syb fr (fun _ => 0)).2 1 = 0xf0 ||| (syb &&& 0x0f) ∧
      (dv_write_ssyb_id syb fr (fun _ => 0)).2 2 = 0xff ∧
      (dv_write_ssyb_id syb fr (fun _ => 0)).2 1 &&& 0x0f = syb ∧
      (syb = 11 → (dv_write_ssyb_id syb fr (fun _ => 0)).2 0 &&& 0x7f = 0x7f) := by
  decide

/-! ### Identifier packers: specification claims -/

/-- C1 (as stated, refuted): with `dv_sect_video`, `chan_num = 1`, `seq_num = 5`,
`dif_num = 10` the second byte written by `dv_write_dif_id` is 0x5F, so the
three bytes are not 0x96, 0x5B, 10. -/
theorem dv_write_dif_id_video_scenario_refuted :
    (dv_write_dif_id .dv_sect_video 1 5 10 (fun _ => 0)).2 1 = 0x5F ∧
    ¬ ((dv_write_dif_id .dv_sect_video 1 5 10 (fun _ => 0)).2 0 = 0x96 ∧
       (dv_write_dif_id .dv_sect_video 1 5 10 (fun _ => 0)).2 1 = 0x5B ∧
       (dv_write_dif_id .dv_sect_video 1 5 10 (fun _ => 0)).2 2 = 10) := by
  decide

/-- C1 (amended): `dv_write_dif_id` called with `dv_sect_video`, `chan_num = 1`,
`seq_num = 5`, `dif_num = 10` writes byte 0 = 0x96, byte 1 = 0x5F, which is
`(5<<4)|(1<<3)|(1<<2)|3` because FSP is 1 for channel 1, and byte 2 = 10. -/
theorem dv_write_dif_id_video_scenario (buf : Buf) :
    (dv_write_dif_id .dv_sect_video 1 5 10 buf).2 0 = 0x96 ∧
    (dv_write_dif_id .dv_sect_video 1 5 10 buf).2 1 = 0x5F ∧
    (dv_write_dif_id .dv_sect_video 1 5 10 buf).2 2 = 10 ∧
    Int.lor (Int.lor (Int.lor (shl 5 4) (shl 1 3)) (shl 1 2)) 3 = 0x5F := by
  refine ⟨?_, ?_, ?_, by decide⟩
  · rw [dv_write_dif_id_b0]; decide
  · rw [dv_write_dif_id_b1]; decide
  · rw [dv_write_dif_id_b2]

/-- C2: for every section type, channel number in 0..3, sequence number in 0..15
and 8-bit block number, `dv_write_dif_id` returns 3 and writes exactly byte 0 =
the section type, byte 1 with upper four bits the sequence number, bit 3 =
`chan & 1`, bit 2 = `1 - (chan >> 1)` and both low bits 1, byte 2 = the block
number; no other byte of the buffer changes. -/
theorem dv_write_dif_id_layout (t : dv_section_type) (chan seq dif_num : Nat) (buf : Buf)
    (hc : chan < 4) (hs : seq < 16) (hd : dif_num < 256) :
    (dv_write_dif_id t chan seq dif_num buf).1 = 3 ∧
    ((dv_write_dif_id t chan seq dif_num buf).2 0 : Int) = t.val ∧
    (dv_write_dif_id t chan seq dif_num buf).2 1 >>> 4 = seq ∧
    ((dv_write_dif_id t chan seq dif_num buf).2 1 >>> 3) &&& 1 = chan &&& 1 ∧
    ((dv_write_dif_id t chan seq dif_num buf).2 1 >>> 2) &&& 1 = 1 - (chan >>> 1) ∧
    (dv_write_dif_id t chan seq dif_num buf).2 1 &&& 3 = 3 ∧
    (dv_write_dif_id t chan seq dif_num buf).2 1 < 256 ∧
    (dv_write_dif_id t chan seq dif_num buf).2 2 = dif_num ∧
    ∀ i, 3 ≤ i → (dv_write_dif_id t chan seq dif_num buf).2 i = buf i := by
  obtain ⟨h4, h3, h2, h1, hlt, -⟩ := dv_write_dif_id_b1_fields chan hc seq hs
  rw [dv_write_dif_id_b1, dv_write_dif_id_b0, dv_write_dif_id_b2, Nat.mod_eq_of_lt hd]
  refine ⟨rfl, ?_, h4, h3, h2, h1, hlt, rfl, fun i hi => dv_write_dif_id_rest t chan seq dif_num buf i hi⟩
  cases t <;> decide

theorem dv_write_dif_id_layout_witness :
    (dv_write_dif_id .dv_sect_audio 2 9 8 (fun _ => 0)).1 = 3 ∧
    ((dv_write_dif_id .dv_sect_audio 2 9 8 (fun _ => 0)).2 0 : Int) =
      dv_section_type.dv_sect_audio.val ∧
    (dv_write_dif_id .dv_sect_audio 2 9 8 (fun _ => 0)).2 1 >>> 4 = 9 ∧
    ((dv_write_dif_id .dv_sect_audio 2 9 8 (fun _ => 0)).2 1 >>> 3) &&& 1 = 2 &&& 1 ∧
    ((dv_write_dif_id .dv_sect_audio 2 9 8 (fun _ => 0)).2 1 >>> 2) &&& 1 = 1 - (2 >>> 1) ∧
    (dv_write_dif_id .dv_sect_audio 2 9 8 (fun _ => 0)).2 1 &&& 3 = 3 ∧
    (dv_write_dif_id .dv_sect_audio 2 9 8 (fun _ => 0)).2 1 < 256 ∧
    (dv_write_dif_id .dv_sect_audio 2 9 8 (fun _ => 0)).2 2 = 8 ∧
    ∀ i, 3 ≤ i → (dv_write_dif_id .dv_sect_audio 2 9 8 (fun _ => 0)).2 i = (fun _ => 0) i :=
  dv_write_dif_id_layout .dv_sect_audio 2 9 8 (fun _ => 0) (by decide) (by decide) (by decide)

/-- C3: `dv_write_dif_id` is injective on legal inputs (section type of the
enumeration, channel in 0..3, sequence in 0..15, block number in 0..255):
`unpack_dif_id` recovers the input tuple from the packed bytes, and any legal
input producing the same three bytes is the same tuple. -/
theorem dv_write_dif_id_injective (t : dv_section_type) (chan seq dif_num : Nat) (buf : Buf)
    (hc : chan < 4) (hs : seq < 16) (hd : dif_num < 256) :
    unpack_dif_id (dv_write_dif_id t chan seq dif_num buf).2 = some (t, chan, seq, dif_num) ∧
    ∀ (t2 : dv_section_type) (chan2 seq2 dif_num2 : Nat) (buf2 : Buf),
      chan2 < 4 → seq2 < 16 → dif_num2 < 256 →
      (∀ i < 3, (dv_write_dif_id t2 chan2 seq2 dif_num2 buf2).2 i =
        (dv_write_dif_id t chan seq dif_num buf).2 i) →
      (t2, chan2, seq2, dif_num2) = (t, chan, seq, dif_num) := by
  refine ⟨unpack_dif_id_write t chan seq dif_num buf hc hs hd, ?_⟩
  intro t2 chan2 seq2 dif_num2 buf2 hc2 hs2 hd2 hbytes
  have e1 := unpack_dif_id_write t chan seq dif_num buf hc hs hd
  have e2 := unpack_dif_id_write t2 chan2 seq2 dif_num2 buf2 hc2 hs2 hd2
  rw [unpack_dif_id_congr _ _ hbytes, e1] at e2
  exact (Option.some.inj e2).symm

theorem dv_write_dif_id_injective_witness :
    unpack_dif_id (dv_write_dif_id .dv_sect_vaux 3 11 134 (fun _ => 0)).2 =
      some (.dv_sect_vaux, 3, 11, 134) ∧
    ∀ (t2 : dv_section_type) (chan2 seq2 dif_num2 : Nat) (buf2 : Buf),
      chan2 < 4 → seq2 < 16 → dif_num2 < 256 →
      (∀ i < 3, (dv_write_dif_id t2 chan2 seq2 dif_num2 buf2).2 i =
        (dv_write_dif_id .dv_sect_vaux 3 11 134 (fun _ => 0)).2 i) →
      (t2, chan2, seq2, dif_num2) = (dv_section_type.dv_sect_vaux, 3, 11, 134) :=
  dv_write_dif_id_injective .dv_sect_vaux 3 11 134 (fun _ => 0)
    (by decide) (by decide) (by decide)

/-- C4: for every sync block number in 0..11 and field flag in {0,1},
`dv_write_ssyb_id` returns 3 and writes byte 0 with low nibble 0xf, bit 7 the
field flag and bits 4..6 all 0 unless the number is 11, where they are all 1;
byte 1 = `0xf0 | (syb & 0xf)`; byte 2 = 0xff; no other byte changes. -/
theorem dv_write_ssyb_id_layout (syb fr : Nat) (buf : Buf) (hs : syb < 12) (hf : fr < 2) :
    (dv_write_ssyb_id syb fr buf).1 = 3 ∧
    (dv_write_ssyb_id syb fr buf).2 0 &&& 0x0f = 0x0f ∧
    (dv_write_ssyb_id syb fr buf).2 0 >>> 7 = fr ∧
    ((dv_write_ssyb_id syb fr buf).2 0 >>> 4) &&& 7 = (if syb = 11 then 7 else 0) ∧
    (syb = 11 → (dv_write_ssyb_id syb fr buf).2 0 &&& 0x7f = 0x7f) ∧
    (dv_write_ssyb_id syb fr buf).2 0 < 256 ∧
    (dv_write_ssyb_id syb fr buf).2 1 = 0xf0 ||| (syb &&& 0x0f) ∧
    (dv_write_ssyb_id syb fr buf).2 2 = 0xff ∧
    ∀ i, 3 ≤ i → (dv_write_ssyb_id syb fr buf).2 i = buf i := by
  obtain ⟨h1, h2, h3, h4, h5, h6, -, h7⟩ := dv_write_ssyb_id_fields syb hs fr hf
  rw [dv_write_ssyb_id_b0, dv_write_ssyb_id_b1, dv_write_ssyb_id_b2]
  exact ⟨rfl, h1, h2, h3, h7, h4, h5, h6,
    fun i hi => dv_write_ssyb_id_rest syb fr buf i hi⟩

theorem dv_write_ssyb_id_layout_witness :
    (dv_write_ssyb_id 11 1 (fun _ => 0)).1 = 3 ∧
    (dv_write_ssyb_id 11 1 (fun _ => 0)).2 0 &&& 0x0f = 0x0f ∧
    (dv_write_ssyb_id 11 1 (fun _ => 0)).2 0 >>> 7 = 1 ∧
    ((dv_write_ssyb_id 11 1 (fun _ => 0)).2 0 >>> 4) &&& 7 = (if 11 = 11 then 7 else 0) ∧
    (11 = 11 → (dv_write_ssyb_id 11 1 (fun _ => 0)).2 0 &&& 0x7f = 0x7f) ∧
    (dv_write_ssyb_id 11 1 (fun _ => 0)).2 0 < 256 ∧
    (dv_write_ssyb_id 11 1 (fun _ => 0)).2 1 = 0xf0 ||| (11 &&& 0x0f) ∧
    (dv_write_ssyb_id 11 1 (fun _ => 0)).2 2 = 0xff ∧
    ∀ i, 3 ≤ i → (dv_write_ssyb_id 11 1 (fun _ => 0)).2 i = (fun _ => 0) i :=
  dv_write_ssyb_id_layout 11 1 (fun _ => 0) (by decide) (by decide)

/-- C5: `dv_write_ssyb_id` is injective on legal inputs (sync block number in
0..11, field flag in {0,1}): the number is byte 1 `& 0x0f`, the flag is bit 7
of byte 0, and any legal input producing the same three bytes is the same
pair. -/
theorem dv_write_ssyb_id_injective (syb fr : Nat) (buf : Buf) (hs : syb < 12) (hf : fr < 2) :
    unpack_ssyb_id (dv_write_ssyb_id syb fr buf).2 = (syb, fr) ∧
    ∀ (syb2 fr2 : Nat) (buf2 : Buf), syb2 < 12 → fr2 < 2 →
      (∀ i < 3, (dv_write_ssyb_id syb2 fr2 buf2).2 i = (dv_write_ssyb_id syb fr buf).2 i) →
      (syb2, fr2) = (syb, fr) := by
  have key : ∀ (s f : Nat) (b : Buf), s < 12 → f < 2 →
      unpack_ssyb_id (dv_write_ssyb_id s f b).2 = (s, f) := by
    intro s f b hs hf
    obtain ⟨-, h7, -, -, -, -, hlow, -⟩ := dv_write_ssyb_id_fields s hs f hf
    unfold unpack_ssyb_id
    rw [dv_write_ssyb_id_b0, dv_write_ssyb_id_b1, h7, hlow]
  refine ⟨key syb fr buf hs hf, ?_⟩
  intro syb2 fr2 buf2 hs2 hf2 hbytes
  have e2 := key syb2 fr2 buf2 hs2 hf2
  have e1 := key syb fr buf hs hf
  unfold unpack_ssyb_id at e1 e2
  rw [hbytes 0 (by decide), hbytes 1 (by decide), e1] at e2
  exact e2.symm

theorem dv_write_ssyb_id_injective_witness :
    unpack_ssyb_id (dv_write_ssyb_id 6 1 (fun _ => 0)).2 = (6, 1) ∧
    ∀ (syb2 fr2 : Nat) (buf2 : Buf), syb2 < 12 → fr2 < 2 →
      (∀ i < 3, (dv_write_ssyb_id syb2 fr2 buf2).2 i =
        (dv_write_ssyb_id 6 1 (fun _ => 0)).2 i) →
      (syb2, fr2) = (6, 1) :=
  dv_write_ssyb_id_injective 6 1 (fun _ => 0) (by decide) (by decide)

/-! ### Run/level to VLC conversion: auxiliary facts -/

theorem to_u32_natCast (n : Nat) : to_u32 (n : Int) = n % 4294967296 := by
  unfold to_u32; omega

theorem lor_natCast (a b : Nat) : Int.lor (a : Int) (b : Int) = ((a ||| b : Nat) : Int) := rfl

theorem shl_natCast (a n : Nat) : shl (a : Int) n = ((a <<< n : Nat) : Int) := by
  unfold shl; rw [Nat.shiftLeft_eq]; push_cast; rfl

theorem lor_mod_two_pow (a b k : Nat) : (a ||| b) % 2 ^ k = a % 2 ^ k ||| b % 2 ^ k := by
  apply Nat.eq_of_testBit_eq
  intro i
  simp only [Nat.testBit_mod_two_pow, Nat.testBit_or]
  cases decide (i < k) <;> simp


theorem to_u32_escape (level : Int) (s : Nat) (h : 0 ≤ level) :
    to_u32 (Int.lor (Int.lor 0xfe00 (shl level 1)) (s : Int)) =
      (0xfe00 ||| (level.toNat <<< 1) ||| s) % 4294967296 := by
  obtain ⟨n, rfl⟩ := Int.eq_ofNat_of_zero_le h
  rw [shl_natCast]
  have h1 : Int.lor 0xfe00 ((n <<< 1 : Nat) : Int) = ((0xfe00 ||| (n <<< 1) : Nat) : Int) := rfl
  rw [h1, lor_natCast, to_u32_natCast, Int.toNat_ofNat]

theorem to_u32_escape_sign (level : Int) (h : 0 ≤ level) :
    to_u32 (Int.lor (Int.lor 0xfe00 (shl level 1)) 1) =
      to_u32 (Int.lor (Int.lor 0xfe00 (shl level 1)) 0) ||| 1 := by
  have e1 := to_u32_escape level 1 h
  have e0 := to_u32_escape level 0 h
  simp only [Nat.cast_one, Nat.cast_zero, Nat.or_zero] at e1 e0
  rw [e1, e0]
  exact lor_mod_two_pow _ 1 32

theorem lor_sign_comm (a p : Nat) : (a ||| 1) ||| p = ((a ||| 0) ||| p) ||| 1 := by
  rw [Nat.or_zero, Nat.or_assoc, Nat.or_comm 1 p, Nat.or_assoc]

/-! ### Run/level to VLC conversion: specification claims -/

/-- C6: for every table content, run, level and sign, in the compact and in the
full variant, `dv_rl2vlc` and `dv_rl2vlc_size` are defined on the same inputs
and the size returned by `dv_rl2vlc` equals `dv_rl2vlc_size`. -/
theorem dv_rl2vlc_size_eq (CONFIG_SMALL : Bool) (dv_vlc_map : VlcMap) (run level sign : Int) :
    (dv_rl2vlc CONFIG_SMALL dv_vlc_map run level sign).map Prod.fst =
      dv_rl2vlc_size CONFIG_SMALL dv_vlc_map run level := by
  unfold dv_rl2vlc dv_rl2vlc_size
  cases CONFIG_SMALL
  · simp only [Bool.false_eq_true, if_false]
    cases dv_vlc_map_at false dv_vlc_map run level <;> rfl
  · simp only [if_true]
    split_ifs <;>
      (try cases dv_vlc_map_at true dv_vlc_map run level) <;>
      (try cases dv_vlc_map_at true dv_vlc_map 0 level) <;>
      (try cases dv_vlc_map_at true dv_vlc_map (run - 1) 0) <;> rfl

/-- C7: in both variants of `dv_rl2vlc`, for every table content, run and level,
the result for sign 1 is the result for sign 0 with the same size and with the
lowest bit of the code set (`vlc | 1`), also when a run code is shifted in above
the level code. -/
theorem dv_rl2vlc_sign (CONFIG_SMALL : Bool) (dv_vlc_map : VlcMap) (run level : Int) :
    dv_rl2vlc CONFIG_SMALL dv_vlc_map run level 1 =
      (dv_rl2vlc CONFIG_SMALL dv_vlc_map run level 0).map fun r => (r.1, r.2 ||| 1) := by
  have u1 : to_u32 1 = 1 := by decide
  have u0 : to_u32 0 = 0 := by decide
  unfold dv_rl2vlc
  cases CONFIG_SMALL
  · simp only [Bool.false_eq_true, if_false]
    cases dv_vlc_map_at false dv_vlc_map run level <;> simp [u1, u0]
  · simp only [if_true]
    have hlev : ¬ level < ((DV_VLC_MAP_LEV_SIZE true : Nat) : Int) → 0 ≤ level := by
      intro h
      have : ((DV_VLC_MAP_LEV_SIZE true : Nat) : Int) = 23 := rfl
      omega
    split_ifs with h1 h2 h3 h4 <;>
      (try cases dv_vlc_map_at true dv_vlc_map run level) <;>
      (try cases dv_vlc_map_at true dv_vlc_map 0 level) <;>
      (try cases dv_vlc_map_at true dv_vlc_map (run - 1) 0) <;>
      simp [u1, u0, lor_sign_comm, to_u32_escape_sign, hlev, *]


theorem dv_vlc_map_at_small (dv_vlc_map : VlcMap) (run level : Int) :
    (0 ≤ run ∧ run < 15 ∧ 0 ≤ level ∧ level < 23 →
      dv_vlc_map_at true dv_vlc_map run level =
        some { vlc := (dv_vlc_map run.toNat level.toNat).vlc % 4294967296,
               size := (dv_vlc_map run.toNat level.toNat).size % 4294967296 }) ∧
    (¬ (0 ≤ run ∧ run < 15 ∧ 0 ≤ level ∧ level < 23) →
      dv_vlc_map_at true dv_vlc_map run level = none) := by
  have hR : ((DV_VLC_MAP_RUN_SIZE true : Nat) : Int) = 15 := rfl
  have hL : ((DV_VLC_MAP_LEV_SIZE true : Nat) : Int) = 23 := rfl
  unfold dv_vlc_map_at
  rw [hR, hL]
  constructor
  · intro h; rw [if_pos h]
  · intro h; rw [if_neg h]

theorem shl_u32_16_mod (esc code : Nat) :
    (esc ||| shl_u32 code 16) % 65536 = esc % 65536 := by
  have h : shl_u32 code 16 % 2 ^ 16 = 0 := by
    unfold shl_u32
    have : (16 : Int).toNat = 16 := rfl
    rw [this]
    omega
  have := lor_mod_two_pow esc (shl_u32 code 16) 16
  rw [h, Nat.or_zero] at this
  exact this

theorem escape_lt (level sign : Nat) (hi : level < 2147483648) (hs : sign ≤ 1) :
    0xfe00 ||| (level <<< 1) ||| sign < 4294967296 := by
  have h1 : level <<< 1 < 2 ^ 32 := by rw [Nat.shiftLeft_eq]; omega
  have h2 : sign < 2 ^ 32 := by omega
  exact Nat.or_lt_two_pow (Nat.or_lt_two_pow (by norm_num) h1) h2

/-- C8 (amended): in the compact variant, for every level from 23 on and sign
0 or 1, whatever the table holds: with run 0 `dv_rl2vlc` returns size 16 and
the code `0xfe00 | (level << 1) | sign`; with 0 < run < 16 that code is OR'd
with the entry `dv_vlc_map[run-1][0]` shifted left by 16 and the entry's size
is added to 16; with run >= 16 it is OR'd with `0x1f80 | (run - 1)` shifted
left by 16 and the size is 29; in every case the low 16 bits of the result are
the low 16 bits of the escape code.  The full variant has no escape path: from
level 512 on its only table read is outside the table. -/
theorem dv_rl2vlc_escape (dv_vlc_map : VlcMap) (run level sign : Nat)
    (hl : 23 ≤ level) (hi : level < 2147483648) (hs : sign ≤ 1) :
    (run = 0 → dv_rl2vlc true dv_vlc_map run level sign =
      some ((16 : Int), 0xfe00 ||| (level <<< 1) ||| sign)) ∧
    (0 < run → run < 16 → dv_rl2vlc true dv_vlc_map run level sign =
      some (to_i32 (16 + (dv_vlc_map (run - 1) 0).size % 4294967296),
        (0xfe00 ||| (level <<< 1) ||| sign) |||
          shl_u32 ((dv_vlc_map (run - 1) 0).vlc % 4294967296) 16)) ∧
    (16 ≤ run → dv_rl2vlc true dv_vlc_map run level sign =
      some ((29 : Int), (0xfe00 ||| (level <<< 1) ||| sign) |||
          shl_u32 ((0x1f80 ||| (run - 1)) % 4294967296) 16)) ∧
    (∀ r, dv_rl2vlc true dv_vlc_map run level sign = some r →
      r.2 % 65536 = (0xfe00 ||| (level <<< 1) ||| sign) % 65536) ∧
    (512 ≤ level → dv_rl2vlc false dv_vlc_map run level sign = none) := by
  have hL : ((DV_VLC_MAP_LEV_SIZE true : Nat) : Int) = 23 := rfl
  have hlev : ¬ ((level : Int) < 23) := by omega
  have hesc : to_u32 (Int.lor (Int.lor 0xfe00 (shl (level : Int) 1)) (sign : Int)) =
      0xfe00 ||| (level <<< 1) ||| sign := by
    rw [to_u32_escape _ _ (by omega), Int.toNat_ofNat,
      Nat.mod_eq_of_lt (escape_lt level sign hi hs)]
  have h16 : to_u32 16 = 16 := by decide
  have main : dv_rl2vlc true dv_vlc_map run level sign =
      if (run : Int) ≠ 0 then
        (if (run : Int) < 16 then
            (dv_vlc_map_at true dv_vlc_map ((run : Int) - 1) 0).bind fun e => some e.vlc
          else some (to_u32 (Int.lor 0x1f80 ((run : Int) - 1)))).bind fun code =>
        (if (run : Int) < 16 then
            (dv_vlc_map_at true dv_vlc_map ((run : Int) - 1) 0).bind fun e => some e.size
          else some 13).bind fun len =>
        some (to_i32 (16 + len), (0xfe00 ||| (level <<< 1) ||| sign) ||| shl_u32 code 16)
      else some ((16 : Int), 0xfe00 ||| (level <<< 1) ||| sign) := by
    unfold dv_rl2vlc
    simp only [if_true, hL, hlev, and_false, if_false, hesc, Option.some_bind, h16]
  refine ⟨?_, ?_, ?_, ?_, ?_⟩
  rotate_right
  · intro h512
    have hF : ((DV_VLC_MAP_LEV_SIZE false : Nat) : Int) = 512 := rfl
    have hout : ¬ (0 ≤ (run : Int) ∧ (run : Int) < ((DV_VLC_MAP_RUN_SIZE false : Nat) : Int) ∧
        0 ≤ (level : Int) ∧ (level : Int) < ((DV_VLC_MAP_LEV_SIZE false : Nat) : Int)) := by
      rw [hF]; omega
    unfold dv_rl2vlc dv_vlc_map_at
    simp only [Bool.false_eq_true, if_false, if_neg hout, Option.none_bind]
  · intro h0
    rw [main, if_neg (by simp [h0])]
  · intro h0 h1
    have hat := (dv_vlc_map_at_small dv_vlc_map ((run : Int) - 1) 0).1 (by omega)
    have hrow : ((run : Int) - 1).toNat = run - 1 := by omega
    have hcol : (0 : Int).toNat = 0 := rfl
    have hne : (run : Int) ≠ 0 := by omega
    have hlt : (run : Int) < 16 := by omega
    simp only [main, if_pos hne, if_pos hlt, hat, hrow, hcol, Option.some_bind]
  · intro h0
    have hrun : to_u32 (Int.lor 0x1f80 ((run : Int) - 1)) = (0x1f80 ||| (run - 1)) % 4294967296 := by
      have : ((run : Int) - 1) = ((run - 1 : Nat) : Int) := by omega
      rw [this]
      exact to_u32_natCast _
    have hne : (run : Int) ≠ 0 := by omega
    have hge : ¬ (run : Int) < 16 := by omega
    have h29 : to_i32 (16 + 13) = 29 := by decide
    simp only [main, if_pos hne, if_neg hge, hrun, Option.some_bind, h29]
  · intro r hr
    rw [main] at hr
    split_ifs at hr with h0 h1
    · have hat := (dv_vlc_map_at_small dv_vlc_map ((run : Int) - 1) 0).1 (by omega)
      rw [hat] at hr
      simp only [Option.some_bind, Option.some.injEq] at hr
      rw [← hr]
      exact shl_u32_16_mod _ _
    · simp only [Option.some_bind, Option.some.injEq] at hr
      rw [← hr]
      exact shl_u32_16_mod _ _
    · simp only [Option.some.injEq] at hr
      rw [← hr]


/-- C8 (as stated, refuted): the full variant has no escape path; at run 0 and
level 512 = `DV_VLC_MAP_LEV_SIZE` it reads `dv_vlc_map[0][512]`, outside the
table, and does not produce the escape code with size 16. -/
theorem dv_rl2vlc_full_no_escape :
    DV_VLC_MAP_LEV_SIZE false = 512 ∧
    dv_rl2vlc false (fun _ _ => { vlc := 0, size := 0 }) 0 512 0 = none ∧
    dv_rl2vlc false (fun _ _ => { vlc := 0, size := 0 }) 0 512 0 ≠
      some (16, 0xfe00 ||| (512 <<< 1) ||| 0) := by
  decide

theorem dv_rl2vlc_escape_witness :
    dv_rl2vlc true (fun r l => { vlc := r + 1, size := l + 2 }) 0 23 1 = some (16, 0xfe2f) :=
  (dv_rl2vlc_escape (fun r l => { vlc := r + 1, size := l + 2 }) 0 23 1
    (by decide) (by decide) (by decide)).1 rfl

theorem dv_vlc_map_at_isSome (dv_vlc_map : VlcMap) (r l : Int) :
    (dv_vlc_map_at true dv_vlc_map r l).isSome = true ↔ (0 ≤ r ∧ r ≤ 14 ∧ 0 ≤ l ∧ l ≤ 22) := by
  by_cases h : 0 ≤ r ∧ r < 15 ∧ 0 ≤ l ∧ l < 23
  · rw [(dv_vlc_map_at_small dv_vlc_map r l).1 h]
    simp only [Option.isSome_some, true_iff]
    omega
  · rw [(dv_vlc_map_at_small dv_vlc_map r l).2 h]
    simp only [Option.isSome_none, Bool.false_eq_true, false_iff]
    omega

/-- C9: in compact mode `dv_rl2vlc` and `dv_rl2vlc_size` return a result for
every run >= 0 and level >= 0, also outside the table bounds: no table read
they perform is out of bounds, a read being in bounds exactly when its row is
in 0..14 and its column in 0..22. -/
theorem dv_rl2vlc_total (dv_vlc_map : VlcMap) (run level sign : Int)
    (hr : 0 ≤ run) (hl : 0 ≤ level) :
    (dv_rl2vlc true dv_vlc_map run level sign).isSome = true ∧
    (dv_rl2vlc_size true dv_vlc_map run level).isSome = true ∧
    (∀ r l : Int, (dv_vlc_map_at true dv_vlc_map r l).isSome = true ↔
      (0 ≤ r ∧ r ≤ 14 ∧ 0 ≤ l ∧ l ≤ 22)) := by
  have hR : ((DV_VLC_MAP_RUN_SIZE true : Nat) : Int) = 15 := rfl
  have hL : ((DV_VLC_MAP_LEV_SIZE true : Nat) : Int) = 23 := rfl
  refine ⟨?_, ?_, dv_vlc_map_at_isSome dv_vlc_map⟩
  · unfold dv_rl2vlc
    simp only [if_true, hR, hL]
    split_ifs with h1 h2 h3 h4 h5 h6 <;>
      (try rw [(dv_vlc_map_at_small dv_vlc_map run level).1 (by omega)]) <;>
      (try rw [(dv_vlc_map_at_small dv_vlc_map 0 level).1 (by omega)]) <;>
      (try rw [(dv_vlc_map_at_small dv_vlc_map (run - 1) 0).1 (by omega)]) <;>
      simp
  · unfold dv_rl2vlc_size
    simp only [if_true, hR, hL]
    split_ifs with h1 h2 h3 h4 h5 h6 <;>
      (try rw [(dv_vlc_map_at_small dv_vlc_map run level).1 (by omega)]) <;>
      (try rw [(dv_vlc_map_at_small dv_vlc_map 0 level).1 (by omega)]) <;>
      (try rw [(dv_vlc_map_at_small dv_vlc_map (run - 1) 0).1 (by omega)]) <;>
      simp

theorem dv_rl2vlc_total_witness :
    (dv_rl2vlc true (fun r l => { vlc := r + 1, size := l + 2 }) 15 40 1).isSome = true ∧
    (dv_rl2vlc_size true (fun r l => { vlc := r + 1, size := l + 2 }) 15 40).isSome = true ∧
    (∀ r l : Int,
      (dv_vlc_map_at true (fun r l => { vlc := r + 1, size := l + 2 }) r l).isSome = true ↔
      (0 ≤ r ∧ r ≤ 14 ∧ 0 ≤ l ∧ l ≤ 22)) :=
  dv_rl2vlc_total (fun r l => { vlc := r + 1, size := l + 2 }) 15 40 1 (by decide) (by decide)

/-! ### Macroblock coordinates -/

theorem land_natCast (a b : Nat) : Int.land (a : Int) (b : Int) = ((a &&& b : Nat) : Int) := rfl

theorem shr_natCast (a n : Nat) : shr (a : Int) n = ((a >>> n : Nat) : Int) := by
  unfold shr; rw [Nat.shiftRight_eq_div_pow]; push_cast; rfl

/-- C10: with profile height 720 and `(buf[1] & 0x0C) == 0`, for every packed
coordinate `c` with raw row `y = c >> 8`, `dv_calculate_mb_xy` returns
`mb_x = c & 0xff` and `mb_y = y - 18` if `y > 17`, `mb_y = y + 72` if
`y <= 17`; so raw row 20 maps to 2 and raw row 5 maps to 77. -/
theorem dv_calculate_mb_xy_720 (s : DVVideoContext) (work_chunk : DVwork_chunk) (m : Int)
    (c : Nat) (hc : work_chunk.mb_coordinates_at m = some c)
    (hh : s.sys.height = 720) (hf : s.buf 1 &&& 0x0C = 0) :
    dv_calculate_mb_xy s work_chunk m =
      some (((c &&& 0xff : Nat) : Int),
        if c >>> 8 > 17 then ((c >>> 8 : Nat) : Int) - 18 else ((c >>> 8 : Nat) : Int) + 72) ∧
    (c >>> 8 = 20 → (dv_calculate_mb_xy s work_chunk m).map Prod.snd = some 2) ∧
    (c >>> 8 = 5 → (dv_calculate_mb_xy s work_chunk m).map Prod.snd = some 77) := by
  have hflag : Int.land ((s.buf 1 : Nat) : Int) 0x0C = 0 := by
    have := land_natCast (s.buf 1) 0x0C
    rw [hf] at this
    exact this
  have hx : Int.land (c : Int) 0xff = ((c &&& 0xff : Nat) : Int) := land_natCast c 0xff
  have main : dv_calculate_mb_xy s work_chunk m =
      some (((c &&& 0xff : Nat) : Int),
        if c >>> 8 > 17 then ((c >>> 8 : Nat) : Int) - 18 else ((c >>> 8 : Nat) : Int) + 72) := by
    unfold dv_calculate_mb_xy
    simp only [hc, Option.some_bind, hh, hflag, and_self, if_true, hx, shr_natCast]
    split_ifs <;> first | rfl | omega
  refine ⟨main, ?_, ?_⟩
  · intro hy
    rw [main, hy]
    rfl
  · intro hy
    rw [main, hy]
    rfl

theorem dv_calculate_mb_xy_720_witness :
    dv_calculate_mb_xy
        { sys := { dsf := 1, video_stype := 0x18, frame_size := 288000, difseg_size := 12,
                   n_difchan := 2, ltc_divisor := 50, height := 720, width := 960, bpm := 8,
                   audio_stride := 108 },
          buf := fun _ => 0x53 }
        { buf_offset := 0, mb_coordinates := fun i => 0x1403 + 0x100 * i } 0 = some (3, 2) ∧
    dv_calculate_mb_xy
        { sys := { dsf := 1, video_stype := 0x18, frame_size := 288000, difseg_size := 12,
                   n_difchan := 2, ltc_divisor := 50, height := 720, width := 960, bpm := 8,
                   audio_stride := 108 },
          buf := fun _ => 0x53 }
        { buf_offset := 0, mb_coordinates := fun i => 0x0507 + 0x100 * i } 0 = some (7, 77) :=
  ⟨(dv_calculate_mb_xy_720 _ _ 0 0x1403 (by decide) (by decide) (by decide)).1,
   (dv_calculate_mb_xy_720 _ _ 0 0x0507 (by decide) (by decide) (by decide)).1⟩

/-- C11: `dv_calculate_mb_xy` applies the half-frame correction only for the one
profile/flag combination: when the profile height is not 720 or
`(buf[1] & 0x0C) != 0` the result for a packed coordinate `c` is exactly
`(c & 0xff, c >> 8)`, so the packing `x | (y << 8)` of `x`, `y` in 0..255
decodes to `(x, y)`; and in every case `mb_x = c & 0xff`. -/
theorem dv_calculate_mb_xy_uncorrected (s : DVVideoContext) (work_chunk : DVwork_chunk)
    (m : Int) (c : Nat) (hc : work_chunk.mb_coordinates_at m = some c) :
    ((s.sys.height ≠ 720 ∨ s.buf 1 &&& 0x0C ≠ 0) →
      dv_calculate_mb_xy s work_chunk m =
        some (((c &&& 0xff : Nat) : Int), ((c >>> 8 : Nat) : Int)) ∧
      ∀ x y : Nat, x < 256 → y < 256 → c = x ||| (y <<< 8) →
        dv_calculate_mb_xy s work_chunk m = some ((x : Int), (y : Int))) ∧
    (dv_calculate_mb_xy s work_chunk m).map Prod.fst = some ((c &&& 0xff : Nat) : Int) := by
  have hx : Int.land (c : Int) 0xff = ((c &&& 0xff : Nat) : Int) := land_natCast c 0xff
  have hflag : Int.land ((s.buf 1 : Nat) : Int) 0x0C = ((s.buf 1 &&& 0x0C : Nat) : Int) :=
    land_natCast (s.buf 1) 0x0C
  have hplain : (s.sys.height ≠ 720 ∨ s.buf 1 &&& 0x0C ≠ 0) →
      dv_calculate_mb_xy s work_chunk m =
        some (((c &&& 0xff : Nat) : Int), ((c >>> 8 : Nat) : Int)) := by
    intro hno
    have hcond : ¬ (s.sys.height = 720 ∧ Int.land ((s.buf 1 : Nat) : Int) 0x0C = 0) := by
      rw [hflag]
      rintro ⟨h1, h2⟩
      rcases hno with h | h
      · exact h h1
      · exact h (by exact_mod_cast h2)
    unfold dv_calculate_mb_xy
    simp only [hc, Option.some_bind, if_neg hcond, hx, shr_natCast]
  refine ⟨fun hno => ⟨hplain hno, ?_⟩, ?_⟩
  · intro x y hx256 hy256 hpack
    have hsum : c = 2 ^ 8 * y + x := by
      rw [hpack, Nat.lor_comm, Nat.shiftLeft_eq, Nat.mul_comm]
      exact (Nat.mul_add_lt_is_or (by omega) y).symm
    have hlow : c &&& 0xff = x := by
      have := Nat.and_pow_two_sub_one_eq_mod c 8
      norm_num at this
      rw [this]; omega
    have hhigh : c >>> 8 = y := by
      rw [Nat.shiftRight_eq_div_pow]; omega
    rw [hplain hno, hlow, hhigh]
  · unfold dv_calculate_mb_xy
    simp only [hc, Option.some_bind, hx]
    split_ifs <;> rfl

theorem dv_calculate_mb_xy_uncorrected_witness :
    dv_calculate_mb_xy
        { sys := { dsf := 1, video_stype := 0x18, frame_size := 288000, difseg_size := 12,
                   n_difchan := 2, ltc_divisor := 50, height := 720, width := 960, bpm := 8,
                   audio_stride := 108 },
          buf := fun _ => 0x57 }
        { buf_offset := 0, mb_coordinates := fun i => 0x0507 + 0x100 * i } 0 = some (7, 5) :=
  ((dv_calculate_mb_xy_uncorrected _ _ 0 0x0507 (by decide)).1 (Or.inr (by decide))).1

/-- C12: for every profile, `dv_work_pool_size` is
`n_difchan * difseg_size * 27`, reduced by 81 exactly for the 1080i50 profile
(`video_stype == 0x14` and `dsf == 1`), by 108 exactly for the 720p50 profile
(`video_stype == 0x18` and `dsf == 1`), and unreduced otherwise; the two
reductions never apply together. -/
theorem dv_work_pool_size_eq (d : DVprofile) :
    dv_work_pool_size d =
      d.n_difchan * d.difseg_size * 27
        - (if d.video_stype = 0x14 ∧ d.dsf = 1 then 81 else 0)
        - (if d.video_stype = 0x18 ∧ d.dsf = 1 then 108 else 0) ∧
    (dv_work_pool_size d = d.n_difchan * d.difseg_size * 27 - 81 ↔
      (d.video_stype = 0x14 ∧ d.dsf = 1)) ∧
    (dv_work_pool_size d = d.n_difchan * d.difseg_size * 27 - 108 ↔
      (d.video_stype = 0x18 ∧ d.dsf = 1)) ∧
    (dv_work_pool_size d = d.n_difchan * d.difseg_size * 27 ↔
      ¬ (d.video_stype = 0x14 ∧ d.dsf = 1) ∧ ¬ (d.video_stype = 0x18 ∧ d.dsf = 1)) ∧
    ¬ ((d.video_stype = 0x14 ∧ d.dsf = 1) ∧ (d.video_stype = 0x18 ∧ d.dsf = 1)) := by
  have main : dv_work_pool_size d =
      d.n_difchan * d.difseg_size * 27
        - (if d.video_stype = 0x14 ∧ d.dsf = 1 then 81 else 0)
        - (if d.video_stype = 0x18 ∧ d.dsf = 1 then 108 else 0) := by
    unfold dv_work_pool_size DV_PROFILE_IS_1080i50 DV_PROFILE_IS_720p50
    simp only [Bool.and_eq_true, decide_eq_true_eq]
    split_ifs <;> omega
  refine ⟨main, ?_, ?_, ?_, ?_⟩
  · rw [main]; split_ifs <;> constructor <;> intro h <;> omega
  · rw [main]; split_ifs <;> constructor <;> intro h <;> omega
  · rw [main]; split_ifs <;> constructor <;> intro h <;> omega
  · omega

/-! ### DV100 quantization tables -/

/-- C13: the 31-entry table `dv100_qlevels` is ordered by non-decreasing
effective step `dv100_qstep[QNO] * 2^CNO`: consecutive entries never decrease,
they strictly increase everywhere except from the first entry to the second,
which both have step 1, and the last entry has step 416. -/
theorem dv100_qlevels_monotone (i : Nat) (hi : i + 1 < 31) :
    dv100_qlevels.length = 31 ∧
    qlevel_step (dv100_qlevels.getD i 0) ≤ qlevel_step (dv100_qlevels.getD (i + 1) 0) ∧
    (1 ≤ i → qlevel_step (dv100_qlevels.getD i 0) < qlevel_step (dv100_qlevels.getD (i + 1) 0)) ∧
    qlevel_step (dv100_qlevels.getD 0 0) = 1 ∧
    qlevel_step (dv100_qlevels.getD 1 0) = 1 ∧
    qlevel_step (dv100_qlevels.getD 30 0) = 416 := by
  have key : ∀ i < 30,
      qlevel_step (dv100_qlevels.getD i 0) ≤ qlevel_step (dv100_qlevels.getD (i + 1) 0) ∧
      (1 ≤ i →
        qlevel_step (dv100_qlevels.getD i 0) < qlevel_step (dv100_qlevels.getD (i + 1) 0)) := by
    decide
  have hi30 : i < 30 := by omega
  exact ⟨by decide, (key i hi30).1, (key i hi30).2, by decide, by decide, by decide⟩

theorem dv100_qlevels_monotone_witness :
    qlevel_step (dv100_qlevels.getD 23 0) = 52 ∧
    qlevel_step (dv100_qlevels.getD 24 0) = 56 ∧
    qlevel_step (dv100_qlevels.getD 23 0) < qlevel_step (dv100_qlevels.getD (23 + 1) 0) :=
  ⟨by decide, by decide, (dv100_qlevels_monotone 23 (by decide)).2.2.1 (by decide)⟩

/-- C14: qlevel packing round-trips: for `qno` in 0..63 and `cno` in 0..3,
`DV100_MAKE_QLEVEL(qno, cno)` is an 8-bit value whose `DV100_QLEVEL_QNO` is
`qno` and whose `DV100_QLEVEL_CNO` is `cno`; and for every 8-bit `q`,
`DV100_MAKE_QLEVEL(DV100_QLEVEL_QNO(q), DV100_QLEVEL_CNO(q)) = q`. -/
theorem dv100_qlevel_roundtrip (qno cno q : Nat) (hq : qno < 64) (hc : cno < 4)
    (h8 : q < 256) :
    0 ≤ DV100_MAKE_QLEVEL qno cno ∧ DV100_MAKE_QLEVEL qno cno < 256 ∧
    DV100_QLEVEL_QNO (DV100_MAKE_QLEVEL qno cno) = qno ∧
    DV100_QLEVEL_CNO (DV100_MAKE_QLEVEL qno cno) = cno ∧
    DV100_MAKE_QLEVEL (DV100_QLEVEL_QNO q) (DV100_QLEVEL_CNO q) = q := by
  have pack : ∀ qno < 64, ∀ cno < 4,
      0 ≤ DV100_MAKE_QLEVEL (qno : Nat) (cno : Nat) ∧
      DV100_MAKE_QLEVEL (qno : Nat) (cno : Nat) < 256 ∧
      DV100_QLEVEL_QNO (DV100_MAKE_QLEVEL (qno : Nat) (cno : Nat)) = (qno : Nat) ∧
      DV100_QLEVEL_CNO (DV100_MAKE_QLEVEL (qno : Nat) (cno : Nat)) = (cno : Nat) := by
    set_option maxRecDepth 100000 in decide
  have unpack : ∀ q < 256,
      DV100_MAKE_QLEVEL (DV100_QLEVEL_QNO (q : Nat)) (DV100_QLEVEL_CNO (q : Nat)) = (q : Nat) := by
    set_option maxRecDepth 100000 in decide
  obtain ⟨h1, h2, h3, h4⟩ := pack qno hq cno hc
  exact ⟨h1, h2, h3, h4, unpack q h8⟩

theorem dv100_qlevel_roundtrip_witness :
    0 ≤ DV100_MAKE_QLEVEL 15 3 ∧ DV100_MAKE_QLEVEL 15 3 < 256 ∧
    DV100_QLEVEL_QNO (DV100_MAKE_QLEVEL 15 3) = 15 ∧
    DV100_QLEVEL_CNO (DV100_MAKE_QLEVEL 15 3) = 3 ∧
    DV100_MAKE_QLEVEL (DV100_QLEVEL_QNO 0x26) (DV100_QLEVEL_CNO 0x26) = 0x26 :=
  dv100_qlevel_roundtrip 15 3 0x26 (by decide) (by decide) (by decide)

/-- C15: `dv100_qstep_inv` is the reciprocal of `dv100_qstep` shifted up by
`dv100_qstep_bits = 16` bits: for every QNO `i` in 0..15 the entry is the
integer nearest to `65536 / dv100_qstep[i]`, that is
`2 * |dv100_qstep_inv[i] * dv100_qstep[i] - 65536| <= dv100_qstep[i]`. -/
theorem dv100_qstep_inv_nearest (i : Nat) (hi : i < 16) :
    dv100_qstep_bits = 16 ∧ dv100_qstep.length = 16 ∧ dv100_qstep_inv.length = 16 ∧
    2 * |dv100_qstep_inv.getD i 0 * (dv100_qstep.getD i 0 : Int) - 2 ^ 16| ≤
      (dv100_qstep.getD i 0 : Int) := by
  have key : ∀ i < 16,
      2 * |dv100_qstep_inv.getD i 0 * (dv100_qstep.getD i 0 : Int) - 2 ^ 16| ≤
        (dv100_qstep.getD i 0 : Int) := by
    decide
  exact ⟨rfl, rfl, rfl, key i hi⟩

theorem dv100_qstep_inv_nearest_witness :
    dv100_qstep_bits = 16 ∧ dv100_qstep.length = 16 ∧ dv100_qstep_inv.length = 16 ∧
    2 * |dv100_qstep_inv.getD 15 0 * (dv100_qstep.getD 15 0 : Int) - 2 ^ 16| ≤
      (dv100_qstep.getD 15 0 : Int) :=
  dv100_qstep_inv_nearest 15 (by decide)

/-- C16: as compiled (`DV100_SACRIFICE_QUALITY_FOR_SPEED = 1`),
`dv100_qbackstep_delta` is the inverse of `dv100_qstep_delta`: for every QNO `q`
in 0..15 with `dv100_qstep_delta[q] = d > 0`, `q + d <= 15` and
`dv100_qbackstep_delta[q + d] = d`; and for every QNO `q` with
`dv100_qbackstep_delta[q] = b > 0`, `q - b >= 0` and
`dv100_qstep_delta[q - b] = b`. -/
theorem dv100_qbackstep_delta_inverse (q : Nat) (hq : q < 16) :
    DV100_SACRIFICE_QUALITY_FOR_SPEED = 1 ∧
    dv100_qstep_delta.length = 16 ∧ dv100_qbackstep_delta.length = 16 ∧
    (0 < dv100_qstep_delta.getD q 0 →
      q + dv100_qstep_delta.getD q 0 ≤ 15 ∧
      dv100_qbackstep_delta.getD (q + dv100_qstep_delta.getD q 0) 0 =
        dv100_qstep_delta.getD q 0) ∧
    (0 < dv100_qbackstep_delta.getD q 0 →
      dv100_qbackstep_delta.getD q 0 ≤ q ∧
      dv100_qstep_delta.getD (q - dv100_qbackstep_delta.getD q 0) 0 =
        dv100_qbackstep_delta.getD q 0) := by
  have key : ∀ q < 16,
      (0 < dv100_qstep_delta.getD q 0 →
        q + dv100_qstep_delta.getD q 0 ≤ 15 ∧
        dv100_qbackstep_delta.getD (q + dv100_qstep_delta.getD q 0) 0 =
          dv100_qstep_delta.getD q 0) ∧
      (0 < dv100_qbackstep_delta.getD q 0 →
        dv100_qbackstep_delta.getD q 0 ≤ q ∧
        dv100_qstep_delta.getD (q - dv100_qbackstep_delta.getD q 0) 0 =
          dv100_qbackstep_delta.getD q 0) := by
    decide
  exact ⟨rfl, by decide, by decide, key q hq⟩

theorem dv100_qbackstep_delta_inverse_witness :
    dv100_qstep_delta.getD 3 0 = 5 ∧
    (3 + dv100_qstep_delta.getD 3 0 ≤ 15 ∧
      dv100_qbackstep_delta.getD (3 + dv100_qstep_delta.getD 3 0) 0 =
        dv100_qstep_delta.getD 3 0) ∧
    dv100_qbackstep_delta.getD 3 0 = 2 ∧
    (dv100_qbackstep_delta.getD 3 0 ≤ 3 ∧
      dv100_qstep_delta.getD (3 - dv100_qbackstep_delta.getD 3 0) 0 =
        dv100_qbackstep_delta.getD 3 0) :=
  ⟨by decide, (dv100_qbackstep_delta_inverse 3 (by decide)).2.2.2.1 (by decide),
   by decide, (dv100_qbackstep_delta_inverse 3 (by decide)).2.2.2.2 (by decide)⟩

/-- C17: as compiled (`DV100_SACRIFICE_QUALITY_FOR_SPEED = 1`), the increase and
the decrease delta tabulated at one QNO are not inverses of each other: for
every QNO `q` in 0..15 at which `dv100_qstep_delta[q]` or
`dv100_qbackstep_delta[q]` is nonzero the two differ, so stepping up by the
increase delta at `q` and down by the decrease delta at the same `q` does not
return to `q`. -/
theorem dv100_qstep_delta_asymmetric (q : Nat) (hq : q < 16)
    (hnz : dv100_qstep_delta.getD q 0 ≠ 0 ∨ dv100_qbackstep_delta.getD q 0 ≠ 0) :
    DV100_SACRIFICE_QUALITY_FOR_SPEED = 1 ∧
    dv100_qstep_delta.getD q 0 ≠ dv100_qbackstep_delta.getD q 0 ∧
    (q : Int) + (dv100_qstep_delta.getD q 0 : Int) - (dv100_qbackstep_delta.getD q 0 : Int)
      ≠ (q : Int) := by
  have key : ∀ q < 16,
      (dv100_qstep_delta.getD q 0 ≠ 0 ∨ dv100_qbackstep_delta.getD q 0 ≠ 0) →
      dv100_qstep_delta.getD q 0 ≠ dv100_qbackstep_delta.getD q 0 := by
    decide
  have hne := key q hq hnz
  exact ⟨rfl, hne, by omega⟩

theorem dv100_qstep_delta_asymmetric_witness :
    DV100_SACRIFICE_QUALITY_FOR_SPEED = 1 ∧
    dv100_qstep_delta.getD 9 0 ≠ dv100_qbackstep_delta.getD 9 0 ∧
    ((9 : Nat) : Int) + (dv100_qstep_delta.getD 9 0 : Int)
      - (dv100_qbackstep_delta.getD 9 0 : Int) ≠ ((9 : Nat) : Int) :=
  dv100_qstep_delta_asymmetric 9 (by decide) (Or.inl (by decide))

/-- C20: every entry of the 31-entry table `dv100_qlevels`
(`dv100_num_qlevels = 31`) is a valid qlevel: its QNO is at least
`dv100_min_qno = 1` and at most 15, hence a valid index into the 16-entry
tables `dv100_qstep`, `dv100_qstep_delta`, `dv100_qbackstep_delta` and
`dv100_qstep_inv`, and its CNO is in 0..3. -/
theorem dv100_qlevels_valid (i : Nat) (hi : i < 31) :
    dv100_num_qlevels = 31 ∧ dv100_min_qno = 1 ∧
    dv100_min_qno ≤ DV100_QLEVEL_QNO (dv100_qlevels.getD i 0 : Nat) ∧
    DV100_QLEVEL_QNO (dv100_qlevels.getD i 0 : Nat) ≤ 15 ∧
    0 ≤ DV100_QLEVEL_CNO (dv100_qlevels.getD i 0 : Nat) ∧
    DV100_QLEVEL_CNO (dv100_qlevels.getD i 0 : Nat) ≤ 3 ∧
    dv100_qstep.length = 16 ∧ dv100_qstep_delta.length = 16 ∧
    dv100_qbackstep_delta.length = 16 ∧ dv100_qstep_inv.length = 16 := by
  have key : ∀ i < 31,
      dv100_min_qno ≤ DV100_QLEVEL_QNO (dv100_qlevels.getD i 0 : Nat) ∧
      DV100_QLEVEL_QNO (dv100_qlevels.getD i 0 : Nat) ≤ 15 ∧
      0 ≤ DV100_QLEVEL_CNO (dv100_qlevels.getD i 0 : Nat) ∧
      DV100_QLEVEL_CNO (dv100_qlevels.getD i 0 : Nat) ≤ 3 := by
    decide
  obtain ⟨h1, h2, h3, h4⟩ := key i hi
  exact ⟨by decide, rfl, h1, h2, h3, h4, rfl, by decide, by decide, rfl⟩

theorem dv100_qlevels_valid_witness :
    dv100_num_qlevels = 31 ∧ dv100_min_qno = 1 ∧
    dv100_min_qno ≤ DV100_QLEVEL_QNO (dv100_qlevels.getD 30 0 : Nat) ∧
    DV100_QLEVEL_QNO (dv100_qlevels.getD 30 0 : Nat) ≤ 15 ∧
    0 ≤ DV100_QLEVEL_CNO (dv100_qlevels.getD 30 0 : Nat) ∧
    DV100_QLEVEL_CNO (dv100_qlevels.getD 30 0 : Nat) ≤ 3 ∧
    dv100_qstep.length = 16 ∧ dv100_qstep_delta.length = 16 ∧
    dv100_qbackstep_delta.length = 16 ∧ dv100_qstep_inv.length = 16 :=
  dv100_qlevels_valid 30 (by decide)

/-! ### Audio shuffle tables -/

/-- C18: each audio shuffle table is a permutation: the 10 rows of 9 entries of
`dv_audio_shuffle525` are exactly the integers 0..89, each occurring once, and
the 12 rows of 9 entries of `dv_audio_shuffle625` are exactly the integers
0..107, each occurring once. -/
theorem dv_audio_shuffle_perm :
    dv_audio_shuffle525.length = 10 ∧ (∀ row ∈ dv_audio_shuffle525, row.length = 9) ∧
    List.Perm dv_audio_shuffle525.flatten (List.range 90) ∧
    dv_audio_shuffle625.length = 12 ∧ (∀ row ∈ dv_audio_shuffle625, row.length = 9) ∧
    List.Perm dv_audio_shuffle625.flatten (List.range 108) := by
  refine ⟨rfl, by decide, by decide, rfl, by decide, by decide⟩

/-! ### Run codes of the compact fallback path -/

theorem dv_rl2vlc_small_run_zero (dv_vlc_map : VlcMap) (level sign : Int) :
    dv_rl2vlc true dv_vlc_map 0 level sign =
      if level < 23 then
        (dv_vlc_map_at true dv_vlc_map 0 level).bind fun e =>
          some (to_i32 e.size, e.vlc ||| to_u32 sign)
      else some (16, to_u32 (Int.lor (Int.lor 0xfe00 (shl level 1)) sign)) := by
  have hR : ((DV_VLC_MAP_RUN_SIZE true : Nat) : Int) = 15 := rfl
  have hL : ((DV_VLC_MAP_LEV_SIZE true : Nat) : Int) = 23 := rfl
  unfold dv_rl2vlc
  simp only [if_true, hR, hL]
  by_cases h : level < 23
  · simp [h]
  · simp [h]

theorem dv_rl2vlc_small_fallback (dv_vlc_map : VlcMap) (run level sign : Int)
    (hfb : 15 ≤ run ∨ 23 ≤ level) :
    dv_rl2vlc true dv_vlc_map run level sign =
      (dv_rl2vlc true dv_vlc_map 0 level sign).bind fun r =>
        if run ≠ 0 then
          (if run < 16 then
              (dv_vlc_map_at true dv_vlc_map (run - 1) 0).bind fun e => some e.vlc
            else some (to_u32 (Int.lor 0x1f80 (run - 1)))).bind fun code =>
          (if run < 16 then
              (dv_vlc_map_at true dv_vlc_map (run - 1) 0).bind fun e => some e.size
            else some 13).bind fun len =>
          some (to_i32 (to_u32 r.1 + len), r.2 ||| shl_u32 code r.1)
        else some r := by
  have hR : ((DV_VLC_MAP_RUN_SIZE true : Nat) : Int) = 15 := rfl
  have hL : ((DV_VLC_MAP_LEV_SIZE true : Nat) : Int) = 23 := rfl
  have hcond : ¬ (run < 15 ∧ level < 23) := by omega
  rw [dv_rl2vlc_small_run_zero]
  unfold dv_rl2vlc
  simp only [if_true, hR, hL, if_neg hcond]

/-- C19 (as stated, refuted): at run 16 the compact fallback path takes the
13-bit escape run code `0x1f80 | 15`, not a table entry: row 15 is outside the
compact table. -/
theorem dv_rl2vlc_run_16_escape :
    dv_rl2vlc true (fun r l => { vlc := r + 1, size := l + 2 }) 16 1 0 =
      some (((3 + 13 : Int)), 1 ||| ((0x1f80 ||| 15) <<< 3)) ∧
    dv_vlc_map_at true (fun r l => { vlc := r + 1, size := l + 2 }) (16 - 1) 0 = none ∧
    dv_rl2vlc true (fun r l => { vlc := r + 1, size := l + 2 }) 16 1 0 ≠
      some (((3 + 2 : Int)), 1 ||| (16 <<< 3)) := by
  decide

/-- C19 (amended): in compact mode, on the fallback path (run >= 15 or
level >= 23), the result for run 0 is the escape level code alone; for
0 < run <= 15 the code of the same level at run 0 is OR'd with the table entry
`dv_vlc_map[run-1][0]` shifted left by that code's size, whose size is added;
for run >= 16 it is OR'd with the 13-bit escape run code `0x1f80 | (run - 1)`
shifted left likewise, and 13 is added to the size. -/
theorem dv_rl2vlc_run_code (dv_vlc_map : VlcMap) (run : Nat) (level sign : Int)
    (hfb : 15 ≤ run ∨ 23 ≤ level) (hrun : run < 2147483648) :
    (run = 0 → dv_rl2vlc true dv_vlc_map run level sign =
      some (16, to_u32 (Int.lor (Int.lor 0xfe00 (shl level 1)) sign))) ∧
    (0 < run → run ≤ 15 → dv_rl2vlc true dv_vlc_map run level sign =
      (dv_rl2vlc true dv_vlc_map 0 level sign).bind fun r =>
        some (to_i32 (to_u32 r.1 + (dv_vlc_map (run - 1) 0).size % 4294967296),
          r.2 ||| shl_u32 ((dv_vlc_map (run - 1) 0).vlc % 4294967296) r.1)) ∧
    (16 ≤ run → dv_rl2vlc true dv_vlc_map run level sign =
      (dv_rl2vlc true dv_vlc_map 0 level sign).bind fun r =>
        some (to_i32 (to_u32 r.1 + 13), r.2 ||| shl_u32 (0x1f80 ||| (run - 1)) r.1)) := by
  have hfb2 : (15 : Int) ≤ (run : Int) ∨ 23 ≤ level := by omega
  have main := dv_rl2vlc_small_fallback dv_vlc_map (run : Int) level sign hfb2
  refine ⟨?_, ?_, ?_⟩
  · intro h0
    have hlev : ¬ level < 23 := by omega
    subst h0
    rw [Nat.cast_zero, dv_rl2vlc_small_run_zero, if_neg hlev]
  · intro h0 h15
    have hat := (dv_vlc_map_at_small dv_vlc_map ((run : Int) - 1) 0).1 (by omega)
    have hrow : ((run : Int) - 1).toNat = run - 1 := by omega
    have hcol : (0 : Int).toNat = 0 := rfl
    have hne : (run : Int) ≠ 0 := by omega
    have hlt : (run : Int) < 16 := by omega
    rw [main]
    simp only [if_pos hne, if_pos hlt, hat, hrow, hcol, Option.some_bind]
  · intro h16
    have hne : (run : Int) ≠ 0 := by omega
    have hge : ¬ (run : Int) < 16 := by omega
    have hcode : to_u32 (Int.lor 0x1f80 ((run : Int) - 1)) = 0x1f80 ||| (run - 1) := by
      have hcast : ((run : Int) - 1) = ((run - 1 : Nat) : Int) := by omega
      have hlt : 0x1f80 ||| (run - 1) < 2 ^ 32 :=
        Nat.or_lt_two_pow (by norm_num) (by omega)
      rw [hcast]
      exact (to_u32_natCast _).trans (Nat.mod_eq_of_lt hlt)
    rw [main]
    simp only [if_pos hne, if_neg hge, hcode, Option.some_bind]

theorem dv_rl2vlc_run_code_witness :
    dv_rl2vlc true (fun r l => { vlc := r + 1, size := l + 2 }) 15 1 0 =
      some (((3 + 2 : Int)), 1 ||| (15 <<< 3)) ∧
    dv_rl2vlc true (fun r l => { vlc := r + 1, size := l + 2 }) 17 1 0 =
      some (((3 + 13 : Int)), 1 ||| ((0x1f80 ||| 16) <<< 3)) :=
  ⟨(dv_rl2vlc_run_code (fun r l => { vlc := r + 1, size := l + 2 }) 15 1 0
      (Or.inl (by decide)) (by decide)).2.1 (by decide) (by decide),
   (dv_rl2vlc_run_code (fun r l => { vlc := r + 1, size := l + 2 }) 17 1 0
      (Or.inl (by decide)) (by decide)).2.2 (by decide)⟩

/-! ### DV100 weight tables -/

/-- C21: the DV100 forward weight tables are the inverse (spec) weight tables
inverted and scaled: for every coefficient position `i` in 0..63,
`dv_weight_1080[0][i]`, `dv_weight_1080[1][i]`, `dv_weight_720[0][i]` and
`dv_weight_720[1][i]` are the integers nearest to
`2^dv100_weight_shift * 16 / w` (which is `2^20 / w`) for `w` the entry of
`dv_iweight_1080_y`, `dv_iweight_1080_c`, `dv_iweight_720_y` and
`dv_iweight_720_c`, that is `2 * |weight * w - 2^20| <= w`. -/
theorem dv100_weight_nearest (i : Nat) (hi : i < 64) :
    (2 : Int) ^ dv100_weight_shift.toNat * 16 = 2 ^ 20 ∧
    2 * |(dv_weight_1080.getD 0 []).getD i 0 * dv_iweight_1080_y.getD i 0 - 2 ^ 20| ≤
      dv_iweight_1080_y.getD i 0 ∧
    2 * |(dv_weight_1080.getD 1 []).getD i 0 * dv_iweight_1080_c.getD i 0 - 2 ^ 20| ≤
      dv_iweight_1080_c.getD i 0 ∧
    2 * |(dv_weight_720.getD 0 []).getD i 0 * dv_iweight_720_y.getD i 0 - 2 ^ 20| ≤
      dv_iweight_720_y.getD i 0 ∧
    2 * |(dv_weight_720.getD 1 []).getD i 0 * dv_iweight_720_c.getD i 0 - 2 ^ 20| ≤
      dv_iweight_720_c.getD i 0 ∧
    dv_weight_1080.map List.length = [64, 64] ∧ dv_weight_720.map List.length = [64, 64] ∧
    dv_iweight_1080_y.length = 64 ∧ dv_iweight_1080_c.length = 64 ∧
    dv_iweight_720_y.length = 64 ∧ dv_iweight_720_c.length = 64 := by
  have k1 : ∀ i < 64,
      2 * |(dv_weight_1080.getD 0 []).getD i 0 * dv_iweight_1080_y.getD i 0 - 2 ^ 20| ≤
        dv_iweight_1080_y.getD i 0 := by
    set_option maxRecDepth 100000 in decide
  have k2 : ∀ i < 64,
      2 * |(dv_weight_1080.getD 1 []).getD i 0 * dv_iweight_1080_c.getD i 0 - 2 ^ 20| ≤
        dv_iweight_1080_c.getD i 0 := by
    set_option maxRecDepth 100000 in decide
  have k3 : ∀ i < 64,
      2 * |(dv_weight_720.getD 0 []).getD i 0 * dv_iweight_720_y.getD i 0 - 2 ^ 20| ≤
        dv_iweight_720_y.getD i 0 := by
    set_option maxRecDepth 100000 in decide
  have k4 : ∀ i < 64,
      2 * |(dv_weight_720.getD 1 []).getD i 0 * dv_iweight_720_c.getD i 0 - 2 ^ 20| ≤
        dv_iweight_720_c.getD i 0 := by
    set_option maxRecDepth 100000 in decide
  exact ⟨by decide, k1 i hi, k2 i hi, k3 i hi, k4 i hi, by decide, by decide,
    by decide, by decide, by decide, by decide⟩

theorem dv100_weight_nearest_witness :
    2 * |(dv_weight_720.getD 1 []).getD 45 0 * dv_iweight_720_c.getD 45 0 - 2 ^ 20| ≤
      dv_iweight_720_c.getD 45 0 ∧
    (dv_weight_720.getD 1 []).getD 45 0 = 5461 ∧ dv_iweight_720_c.getD 45 0 = 192 :=
  ⟨(dv100_weight_nearest 45 (by decide)).2.2.2.2.1, by decide, by decide⟩

/-! ### Decodability of the compact escape code -/

theorem escape_fields :
    ∀ level < 256, ∀ sign < 2,
      0xfe00 ||| (level <<< 1) ||| sign < 65536 ∧
      (0xfe00 ||| (level <<< 1) ||| sign) >>> 9 = 0x7f ∧
      ((0xfe00 ||| (level <<< 1) ||| sign) >>> 1) &&& 0xff = level ∧
      (0xfe00 ||| (level <<< 1) ||| sign) &&& 1 = sign := by
  set_option maxRecDepth 100000 in decide

theorem escape_run_fields : ∀ run < 65, 16 ≤ run →
    0x1f80 ||| (run - 1) < 8192 ∧ ((0x1f80 ||| (run - 1)) &&& 0x3f) + 1 = run := by
  decide

theorem lor_shl_u32_16 (e p : Nat) (he : e < 65536) (hp : p < 8192) :
    e ||| shl_u32 p 16 < 2 ^ 29 ∧ (e ||| shl_u32 p 16) % 65536 = e ∧
    (e ||| shl_u32 p 16) >>> 16 = p := by
  have h16 : (16 : Int).toNat = 16 := rfl
  have hshl : shl_u32 p 16 = 2 ^ 16 * p := by
    unfold shl_u32
    rw [h16]
    omega
  have hor : e ||| shl_u32 p 16 = 2 ^ 16 * p + e := by
    rw [hshl, Nat.lor_comm]
    exact (Nat.mul_add_lt_is_or (by omega) p).symm
  rw [hor, Nat.shiftRight_eq_div_pow]
  omega

/-- C22: in compact mode the escape code is losslessly decodable within its
declared width: for every level in 23..255 and sign in {0,1}, with run 0 the
emitted code has size 16, is below `2^16`, has top seven bits `0x7f`,
`(vlc >> 1) & 0xff = level` and `vlc & 1 = sign`; and for every run in 16..64
the composed code has size 29, is below `2^29`, has the same low 16 bits as the
run 0 code and `vlc >> 16 = 0x1f80 | (run - 1)`, from which the run is
recovered. -/
theorem dv_rl2vlc_escape_decodable (dv_vlc_map : VlcMap) (run level sign : Nat)
    (hl : 23 ≤ level) (hl2 : level ≤ 255) (hs : sign ≤ 1) (hr : 16 ≤ run) (hr2 : run ≤ 64) :
    ∃ v0 v : Nat,
      dv_rl2vlc true dv_vlc_map 0 level sign = some ((16 : Int), v0) ∧
      v0 < 2 ^ 16 ∧ v0 >>> 9 = 0x7f ∧ (v0 >>> 1) &&& 0xff = level ∧ v0 &&& 1 = sign ∧
      dv_rl2vlc true dv_vlc_map run level sign = some ((29 : Int), v) ∧
      v < 2 ^ 29 ∧ v % 65536 = v0 ∧ v >>> 16 = 0x1f80 ||| (run - 1) ∧
      ((v >>> 16) &&& 0x3f) + 1 = run := by
  obtain ⟨e1, e2, e3, e4⟩ := escape_fields level (by omega) sign (by omega)
  obtain ⟨p1, p2⟩ := escape_run_fields run (by omega) hr
  have hlev : ¬ (level : Int) < 23 := by omega
  have hesc : to_u32 (Int.lor (Int.lor 0xfe00 (shl (level : Int) 1)) (sign : Int)) =
      0xfe00 ||| (level <<< 1) ||| sign := by
    rw [to_u32_escape _ _ (by omega), Int.toNat_ofNat]
    exact Nat.mod_eq_of_lt (by omega)
  have hzero : dv_rl2vlc true dv_vlc_map 0 (level : Int) (sign : Int) =
      some ((16 : Int), 0xfe00 ||| (level <<< 1) ||| sign) := by
    rw [dv_rl2vlc_small_run_zero, if_neg hlev, hesc]
  have hcode : to_u32 (Int.lor 0x1f80 ((run : Int) - 1)) = 0x1f80 ||| (run - 1) := by
    have hcast : ((run : Int) - 1) = ((run - 1 : Nat) : Int) := by omega
    rw [hcast]
    exact (to_u32_natCast _).trans (Nat.mod_eq_of_lt (lt_trans p1 (by norm_num)))
  have hne : (run : Int) ≠ 0 := by omega
  have hge : ¬ (run : Int) < 16 := by omega
  have h16 : to_u32 16 = 16 := by decide
  have h29 : to_i32 (16 + 13) = 29 := by decide
  have hrun : dv_rl2vlc true dv_vlc_map (run : Int) (level : Int) (sign : Int) =
      some ((29 : Int), (0xfe00 ||| (level <<< 1) ||| sign) |||
        shl_u32 (0x1f80 ||| (run - 1)) 16) := by
    rw [dv_rl2vlc_small_fallback dv_vlc_map (run : Int) (level : Int) (sign : Int)
      (Or.inl (by omega)), hzero]
    simp only [Option.some_bind, if_pos hne, if_neg hge, hcode, h16, h29]
  obtain ⟨c1, c2, c3⟩ := lor_shl_u32_16 _ _ e1 p1
  refine ⟨_, _, hzero, e1, e2, e3, e4, hrun, c1, c2, c3, ?_⟩
  rw [c3]
  exact p2

theorem dv_rl2vlc_escape_decodable_witness :
    ∃ v0 v : Nat,
      dv_rl2vlc true (fun r l => { vlc := r + 1, size := l + 2 }) 0 255 1 = some ((16 : Int), v0) ∧
      v0 < 2 ^ 16 ∧ v0 >>> 9 = 0x7f ∧ (v0 >>> 1) &&& 0xff = 255 ∧ v0 &&& 1 = 1 ∧
      dv_rl2vlc true (fun r l => { vlc := r + 1, size := l + 2 }) 64 255 1 = some ((29 : Int), v) ∧
      v < 2 ^ 29 ∧ v % 65536 = v0 ∧ v >>> 16 = 0x1f80 ||| (64 - 1) ∧
      ((v >>> 16) &&& 0x3f) + 1 = 64 :=
  dv_rl2vlc_escape_decodable (fun r l => { vlc := r + 1, size := l + 2 }) 64 255 1
    (by decide) (by decide) (by decide) (by decide) (by decide)

/-! ### Channel bits and the half-frame flag -/

theorem dv_write_dif_id_b1_flag :
    ∀ c < 4, ∀ s < 16,
      ((dv_write_dif_id .dv_sect_header c s 0 (fun _ => 0)).2 1 &&& 0x0C = 0 ↔ c = 2) := by
  decide

/-- C23: the flag test of `dv_calculate_mb_xy` agrees with the channel bits
written by `dv_write_dif_id`: for every section type, sequence number in 0..15,
block number and channel in 0..3, byte 1 written by `dv_write_dif_id` satisfies
`(byte1 & 0x0C) == 0` exactly when the channel is 2; hence for a height-720
profile whose `buf[1]` is that byte the half-frame correction is applied
exactly when the channel number is 2. -/
theorem dv_write_dif_id_flag_chan (t : dv_section_type) (chan seq dif_num : Nat) (buf : Buf)
    (s : DVVideoContext) (work_chunk : DVwork_chunk) (m : Int) (c : Nat)
    (hchan : chan < 4) (hseq : seq < 16)
    (hh : s.sys.height = 720)
    (hb : s.buf 1 = (dv_write_dif_id t chan seq dif_num buf).2 1)
    (hc : work_chunk.mb_coordinates_at m = some c) :
    ((dv_write_dif_id t chan seq dif_num buf).2 1 &&& 0x0C = 0 ↔ chan = 2) ∧
    dv_calculate_mb_xy s work_chunk m =
      some (((c &&& 0xff : Nat) : Int),
        if chan = 2 then
          (if c >>> 8 > 17 then ((c >>> 8 : Nat) : Int) - 18 else ((c >>> 8 : Nat) : Int) + 72)
        else ((c >>> 8 : Nat) : Int)) := by
  have hflag : (dv_write_dif_id t chan seq dif_num buf).2 1 &&& 0x0C = 0 ↔ chan = 2 := by
    rw [dv_write_dif_id_b1]
    exact dv_write_dif_id_b1_flag chan hchan seq hseq
  have hland : Int.land ((s.buf 1 : Nat) : Int) 0x0C = 0 ↔ chan = 2 := by
    have e := land_natCast (s.buf 1) 0x0C
    rw [show ((0x0C : Nat) : Int) = 0x0C from rfl] at e
    rw [e, hb]
    exact_mod_cast hflag
  have hx : Int.land (c : Int) 0xff = ((c &&& 0xff : Nat) : Int) := land_natCast c 0xff
  refine ⟨hflag, ?_⟩
  unfold dv_calculate_mb_xy
  simp only [hc, Option.some_bind, hh, true_and, hland, hx, shr_natCast]
  split_ifs <;> first | rfl | omega

theorem dv_write_dif_id_flag_chan_witness :
    ((dv_write_dif_id .dv_sect_video 2 5 10 (fun _ => 0)).2 1 &&& 0x0C = 0 ↔ 2 = 2) ∧
    dv_calculate_mb_xy
        { sys := { dsf := 1, video_stype := 0x18, frame_size := 288000, difseg_size := 12,
                   n_difchan := 2, ltc_divisor := 50, height := 720, width := 960, bpm := 8,
                   audio_stride := 108 },
          buf := (dv_write_dif_id .dv_sect_video 2 5 10 (fun _ => 0)).2 }
        { buf_offset := 0, mb_coordinates := fun i => 0x1403 + 0x100 * i } 0 =
      some (((0x1403 &&& 0xff : Nat) : Int),
        if 2 = 2 then
          (if 0x1403 >>> 8 > 17 then ((0x1403 >>> 8 : Nat) : Int) - 18
            else ((0x1403 >>> 8 : Nat) : Int) + 72)
        else ((0x1403 >>> 8 : Nat) : Int)) :=
  dv_write_dif_id_flag_chan .dv_sect_video 2 5 10 (fun _ => 0) _ _ 0 0x1403
    (by decide) (by decide) rfl rfl (by decide)

end DV
